import Mathlib

/-!
# The ChakraCore embedding shim of `hello_world.cc`

A shallow embedding of the host side of `hello_world.cc`: the `ErrorCheck`
statement, the class `ChakraHandle` (constructor, `Eval_JS`, `setEcho`), the
native function `Echo` and the conversion `JsValueRefToStr`.

The JavaScript engine is an external library.  It enters the development as
a parameter `Engine σ`: one transition function on an abstract engine state
`σ` per API function the source calls.  Every host function threads a
`World σ` holding the engine state, the log of the engine calls made so far
and the bytes written to standard output.

`JsValueRefToStr`, `ErrorCheck` and `Eval_JS` describe the runs in which the
buffer of the conversion is allocated.  Their `.outcome` versions cover
every run: the allocation may fail, which leaves the function by
`std::bad_alloc`, and `strLength + 1` is computed in `size_t`.
-/

namespace ChakraSample

/-! ## Values shared with the engine's header -/

/-- One `char` of host memory.  No arithmetic is done on bytes. -/
abbrev Byte := Nat

/-- Status returned by every engine call (`JsErrorCode` of the engine's header). -/
abbrev JsErrorCode := Nat

def JsNoError : JsErrorCode := 0
def JsErrorInvalidArgument : JsErrorCode := 0x10001
def JsErrorOutOfMemory : JsErrorCode := 0x20001
def JsErrorScriptException : JsErrorCode := 0x30001
def JsErrorScriptCompile : JsErrorCode := 0x30002

/-- Engine references are pointers the host never dereferences. -/
abbrev JsRef := Nat
abbrev JsValueRef := JsRef
abbrev JsContextRef := JsRef
abbrev JsPropertyIdRef := JsRef
abbrev JsRuntimeHandle := Nat

/-- The null reference. -/
def JS_INVALID_REFERENCE : JsRef := 0

inductive JsRuntimeAttributes
  | JsRuntimeAttributeNone
  deriving DecidableEq, Repr

inductive JsParseScriptAttributes
  | JsParseScriptAttributeNone
  deriving DecidableEq, Repr

/-- The native functions of the program that are handed to the engine. -/
inductive JsNativeFunction
  | Echo
  deriving DecidableEq, Repr

/-! ## Host memory -/

/-- C `strlen` of the byte sequence `s` stored in memory and followed by its
zero terminator: the number of bytes before the first zero byte. -/
def strlen (s : List Byte) : Nat :=
  (s.takeWhile (fun b => b != 0)).length

/-- The text a `const char*` denotes: the bytes before the first zero byte. -/
def cString (s : List Byte) : List Byte :=
  s.takeWhile (fun b => b != 0)

/-- Effect on a buffer of the engine storing `written` at its start.  The
store stays within the buffer. -/
def writeBytes (buffer written : List Byte) : List Byte :=
  (written ++ buffer.drop written.length).take buffer.length

/-- Two's-complement wrap-around of a C `int` (32 bits): the value an
incremented `int` holds on the usual targets once it passes `INT_MAX`. -/
def wrapInt32 (x : Int) : Int :=
  (x + 2147483648) % 4294967296 - 2147483648

/-- Number of values of a `size_t` (64 bits). -/
def sizeModulus : Nat := 18446744073709551616

/-- Number of values of an `unsigned int` (32 bits), the type of the
`byteLength` parameter of `JsCreateExternalArrayBuffer`. -/
def uintModulus : Nat := 4294967296

/-- The bytes of the literal "message". -/
def messageName : List Byte := [109, 101, 115, 115, 97, 103, 101]

/-- The bytes of the literal "echo". -/
def echoName : List Byte := [101, 99, 104, 111]

/-! ## The engine as a parameter -/

/-- Answer of an engine call that has one out-parameter: the status, the
content of the out-parameter variable after the call (whatever the status
is), and the engine state after the call. -/
structure Ret (α σ : Type) where
  code : JsErrorCode
  out : α
  state : σ

/-- Answer of an engine call without out-parameter. -/
structure RetUnit (σ : Type) where
  code : JsErrorCode
  state : σ

/-- Answer of `JsCopyString`: the status, the bytes the engine stored at the
start of the destination buffer, the content of the `length` variable after
the call, and the engine state after the call. -/
structure CopyRet (σ : Type) where
  code : JsErrorCode
  written : List Byte
  length : Nat
  state : σ

/-- The API functions of the engine that `hello_world.cc` calls.  A pointer
argument appears as the bytes stored at it (`none` for `nullptr`); a
`length` pointer appears as a flag telling whether it is non-null.
`hasException` is the runtime's pending-exception state. -/
structure Engine (σ : Type) where
  JsCreateRuntime : σ → JsRuntimeAttributes → Ret JsRuntimeHandle σ
  JsCreateContext : σ → JsRuntimeHandle → Ret JsContextRef σ
  JsSetCurrentContext : σ → JsContextRef → RetUnit σ
  JsDisposeRuntime : σ → JsRuntimeHandle → RetUnit σ
  JsCreateString : σ → List Byte → Nat → Ret JsValueRef σ
  JsCreateExternalArrayBuffer : σ → List Byte → Nat → Ret JsValueRef σ
  JsRun : σ → JsValueRef → Int → JsValueRef → JsParseScriptAttributes → Ret JsValueRef σ
  JsGetAndClearException : σ → Ret JsValueRef σ
  JsCreatePropertyId : σ → List Byte → Nat → Ret JsPropertyIdRef σ
  JsGetProperty : σ → JsValueRef → JsPropertyIdRef → Ret JsValueRef σ
  JsSetProperty : σ → JsValueRef → JsPropertyIdRef → JsValueRef → Bool → RetUnit σ
  JsGetGlobalObject : σ → Ret JsValueRef σ
  JsCreateFunction : σ → JsNativeFunction → Ret JsValueRef σ
  JsConvertValueToString : σ → JsValueRef → Ret JsValueRef σ
  JsCopyString : σ → JsValueRef → Option (List Byte) → Nat → Bool → CopyRet σ
  hasException : σ → Bool

/-- One engine call with its arguments, as the host made it. -/
inductive Call
  | JsCreateRuntime (attributes : JsRuntimeAttributes)
  | JsCreateContext (runtime : JsRuntimeHandle)
  | JsSetCurrentContext (context : JsContextRef)
  | JsDisposeRuntime (runtime : JsRuntimeHandle)
  | JsCreateString (content : List Byte) (length : Nat)
  | JsCreateExternalArrayBuffer (data : List Byte) (byteLength : Nat)
  | JsRun (script : JsValueRef) (sourceContext : Int) (sourceUrl : JsValueRef)
      (parseAttributes : JsParseScriptAttributes)
  | JsGetAndClearException
  | JsCreatePropertyId (name : List Byte) (length : Nat)
  | JsGetProperty (object : JsValueRef) (propertyId : JsPropertyIdRef)
  | JsSetProperty (object : JsValueRef) (propertyId : JsPropertyIdRef) (value : JsValueRef)
      (useStrictRules : Bool)
  | JsGetGlobalObject
  | JsCreateFunction (nativeFunction : JsNativeFunction)
  | JsConvertValueToString (value : JsValueRef)
  | JsCopyString (value : JsValueRef) (buffer : Option (List Byte)) (bufferSize : Nat)
      (lengthWanted : Bool)
  deriving DecidableEq, Repr

/-- What the host threads through its calls: the engine state, the engine
calls the host functions made themselves so far (oldest first) and the bytes
they wrote to `std::cout`.  What happens inside one engine call, callbacks
into `Echo` during `JsRun` included, is part of that call's transition on
the engine state and is not logged. -/
structure World (σ : Type) where
  eng : σ
  trace : List Call
  stdout : List Byte

/-- The world after the engine call `c` that left the engine in state `st`. -/
def World.after {σ : Type} (w : World σ) (c : Call) (st : σ) : World σ :=
  { w with eng := st, trace := w.trace ++ [c] }

/-- The world after `bytes` went to `std::cout`. -/
def World.print {σ : Type} (w : World σ) (bytes : List Byte) : World σ :=
  { w with stdout := w.stdout ++ bytes }

/-! ## `JsValueRefToStr` -/

/-- Translation of `JsValueRefToStr` for the runs in which `make_unique`
hands out the buffer: coerce to a string, ask for its length with a null
destination, allocate `strLength + 1` zeroed bytes, copy, store the
terminator at `strLength`.  No status is looked at.  The length is that of
a string in memory, so `strLength + 1` is taken without `size_t`
wrap-around.  `JsValueRefToStr.outcome` below covers every run. -/
def JsValueRefToStr {σ : Type} (E : Engine σ) (w : World σ) (JsValue : JsValueRef) :
    List Byte × World σ :=
  let r1 := E.JsConvertValueToString w.eng JsValue
  let w1 := w.after (.JsConvertValueToString JsValue) r1.state
  let JsValueString := r1.out
  let r2 := E.JsCopyString w1.eng JsValueString none 0 true
  let w2 := w1.after (.JsCopyString JsValueString none 0 true) r2.state
  let strLength := r2.length
  let result := List.replicate (strLength + 1) 0
  let r3 := E.JsCopyString w2.eng JsValueString (some result) (strLength + 1) false
  let w3 := w2.after (.JsCopyString JsValueString (some result) (strLength + 1) false) r3.state
  let result := writeBytes result r3.written
  (result.set strLength 0, w3)

/-- How a run of a host function that yields a `std::unique_ptr<char[]>` ends:
it returns the buffer; or `make_unique` throws `std::bad_alloc` and the
function is left without a result; or the terminator is stored outside the
array, which is undefined behaviour. -/
inductive Outcome
  | returned (buffer : List Byte)
  | bad_alloc
  | undefined
  deriving DecidableEq, Repr

/-- Translation of `JsValueRefToStr` covering every run.  `allocates n`
tells whether `make_unique<char[]>(n)` obtains its `n` bytes in this run.
`strLength` is a `size_t` and `strLength + 1` is computed in `size_t`.  When
the allocation fails the function is left by `std::bad_alloc` after the two
calls made so far.  The store `result[strLength] = 0` is inside the array
unless `strLength + 1` wrapped to zero. -/
def JsValueRefToStr.outcome {σ : Type} (E : Engine σ) (allocates : Nat → Bool) (w : World σ)
    (JsValue : JsValueRef) : Outcome × World σ :=
  let r1 := E.JsConvertValueToString w.eng JsValue
  let w1 := w.after (.JsConvertValueToString JsValue) r1.state
  let JsValueString := r1.out
  let r2 := E.JsCopyString w1.eng JsValueString none 0 true
  let w2 := w1.after (.JsCopyString JsValueString none 0 true) r2.state
  let strLength := r2.length % sizeModulus
  let size := (strLength + 1) % sizeModulus
  if allocates size then
    let result := List.replicate size 0
    let r3 := E.JsCopyString w2.eng JsValueString (some result) size false
    let w3 := w2.after (.JsCopyString JsValueString (some result) size false) r3.state
    let result := writeBytes result r3.written
    if strLength < size then
      (.returned (result.set strLength 0), w3)
    else
      (.undefined, w3)
  else
    (.bad_alloc, w2)

/-! ## `ErrorCheck` -/

/-- Translation of the statement `ErrorCheck(cmd)` once `cmd` has been run
and has given `errCode`: `some r` when the statement leaves the enclosing
function with `return r`, `none` when control falls through to the statement
after it. -/
def ErrorCheck {σ : Type} (E : Engine σ) (w : World σ) (errCode : JsErrorCode) :
    Option (List Byte × World σ) :=
  if errCode != JsNoError && errCode == JsErrorScriptException then
    let r1 := E.JsGetAndClearException w.eng
    let w1 := w.after .JsGetAndClearException r1.state
    let exception := r1.out
    let r2 := E.JsCreatePropertyId w1.eng messageName messageName.length
    let w2 := w1.after (.JsCreatePropertyId messageName messageName.length) r2.state
    let id := r2.out
    let r3 := E.JsGetProperty w2.eng exception id
    let w3 := w2.after (.JsGetProperty exception id) r3.state
    let value := r3.out
    some (JsValueRefToStr E w3 value)
  else
    none

/-- Translation of `ErrorCheck(cmd)` covering every run: as `ErrorCheck`,
with the conversion of the message ending as `JsValueRefToStr.outcome` says. -/
def ErrorCheck.outcome {σ : Type} (E : Engine σ) (allocates : Nat → Bool) (w : World σ)
    (errCode : JsErrorCode) : Option (Outcome × World σ) :=
  if errCode != JsNoError && errCode == JsErrorScriptException then
    let r1 := E.JsGetAndClearException w.eng
    let w1 := w.after .JsGetAndClearException r1.state
    let exception := r1.out
    let r2 := E.JsCreatePropertyId w1.eng messageName messageName.length
    let w2 := w1.after (.JsCreatePropertyId messageName messageName.length) r2.state
    let id := r2.out
    let r3 := E.JsGetProperty w2.eng exception id
    let w3 := w2.after (.JsGetProperty exception id) r3.state
    let value := r3.out
    some (JsValueRefToStr.outcome E allocates w3 value)
  else
    none

/-! ## `ChakraHandle` -/

/-- The data members of `ChakraHandle`. -/
structure ChakraHandle where
  runtime : JsRuntimeHandle
  context : JsContextRef
  callTimes : Int
  deriving DecidableEq, Repr

/-- Translation of `ChakraHandle::setEcho`. -/
def ChakraHandle.setEcho {σ : Type} (E : Engine σ) (_self : ChakraHandle) (w : World σ) :
    World σ :=
  let r1 := E.JsCreateFunction w.eng .Echo
  let w1 := w.after (.JsCreateFunction .Echo) r1.state
  let function := r1.out
  let r2 := E.JsGetGlobalObject w1.eng
  let w2 := w1.after .JsGetGlobalObject r2.state
  let globalObject := r2.out
  let r3 := E.JsCreatePropertyId w2.eng echoName echoName.length
  let w3 := w2.after (.JsCreatePropertyId echoName echoName.length) r3.state
  let func_name := r3.out
  let r4 := E.JsSetProperty w3.eng globalObject func_name function false
  w3.after (.JsSetProperty globalObject func_name function false) r4.state

/-- Translation of the constructor `ChakraHandle::ChakraHandle()` (named
`new` here: a declaration cannot carry the name of its own structure).  The
member initialiser gives `callTimes = 0`. -/
def ChakraHandle.new {σ : Type} (E : Engine σ) (w : World σ) :
    ChakraHandle × World σ :=
  let r1 := E.JsCreateRuntime w.eng .JsRuntimeAttributeNone
  let w1 := w.after (.JsCreateRuntime .JsRuntimeAttributeNone) r1.state
  let runtime := r1.out
  let r2 := E.JsCreateContext w1.eng runtime
  let w2 := w1.after (.JsCreateContext runtime) r2.state
  let context := r2.out
  let r3 := E.JsSetCurrentContext w2.eng context
  let w3 := w2.after (.JsSetCurrentContext context) r3.state
  let self : ChakraHandle := { runtime := runtime, context := context, callTimes := 0 }
  (self, ChakraHandle.setEcho E self w3)

/-- Translation of the destructor of `ChakraHandle`. -/
def ChakraHandle.destructor {σ : Type} (E : Engine σ) (self : ChakraHandle) (w : World σ) :
    World σ :=
  let r1 := E.JsSetCurrentContext w.eng JS_INVALID_REFERENCE
  let w1 := w.after (.JsSetCurrentContext JS_INVALID_REFERENCE) r1.state
  let r2 := E.JsDisposeRuntime w1.eng self.runtime
  w1.after (.JsDisposeRuntime self.runtime) r2.state

/-- Translation of `ChakraHandle::Eval_JS` for the runs in which the buffer
allocation of the conversion succeeds.  `script` and `sourceUrl` are the
bytes stored at the two `const char*` arguments; `strlen(script)` is
narrowed to the `unsigned int` parameter `byteLength`; `callTimes++` passes
the old value and stores the incremented one.  The cookie is logged as the
`int` passed; its conversion to the engine's cookie type is one-to-one. -/
def ChakraHandle.Eval_JS {σ : Type} (E : Engine σ) (self : ChakraHandle) (w : World σ)
    (script : List Byte) (sourceUrl : List Byte := []) :
    List Byte × ChakraHandle × World σ :=
  let r1 := E.JsCreateString w.eng sourceUrl (strlen sourceUrl)
  let w1 := w.after (.JsCreateString sourceUrl (strlen sourceUrl)) r1.state
  let JsSourceUrl := r1.out
  let r2 := E.JsCreateExternalArrayBuffer w1.eng script (strlen script % uintModulus)
  let w2 :=
    w1.after (.JsCreateExternalArrayBuffer script (strlen script % uintModulus)) r2.state
  let JsScript := r2.out
  let cookie := self.callTimes
  let self1 : ChakraHandle := { self with callTimes := wrapInt32 (self.callTimes + 1) }
  let r3 := E.JsRun w2.eng JsScript cookie JsSourceUrl .JsParseScriptAttributeNone
  let w3 := w2.after (.JsRun JsScript cookie JsSourceUrl .JsParseScriptAttributeNone) r3.state
  let result := r3.out
  match ErrorCheck E w3 r3.code with
  | some r => (r.1, self1, r.2)
  | none =>
    let r := JsValueRefToStr E w3 result
    (r.1, self1, r.2)

/-- Translation of `ChakraHandle::Eval_JS` covering every run: as `Eval_JS`,
with the conversion ending as `JsValueRefToStr.outcome` says. -/
def ChakraHandle.Eval_JS.outcome {σ : Type} (E : Engine σ) (allocates : Nat → Bool)
    (self : ChakraHandle) (w : World σ) (script : List Byte) (sourceUrl : List Byte := []) :
    Outcome × ChakraHandle × World σ :=
  let r1 := E.JsCreateString w.eng sourceUrl (strlen sourceUrl)
  let w1 := w.after (.JsCreateString sourceUrl (strlen sourceUrl)) r1.state
  let JsSourceUrl := r1.out
  let r2 := E.JsCreateExternalArrayBuffer w1.eng script (strlen script % uintModulus)
  let w2 :=
    w1.after (.JsCreateExternalArrayBuffer script (strlen script % uintModulus)) r2.state
  let JsScript := r2.out
  let cookie := self.callTimes
  let self1 : ChakraHandle := { self with callTimes := wrapInt32 (self.callTimes + 1) }
  let r3 := E.JsRun w2.eng JsScript cookie JsSourceUrl .JsParseScriptAttributeNone
  let w3 := w2.after (.JsRun JsScript cookie JsSourceUrl .JsParseScriptAttributeNone) r3.state
  let result := r3.out
  match ErrorCheck.outcome E allocates w3 r3.code with
  | some r => (r.1, self1, r.2)
  | none =>
    let r := JsValueRefToStr.outcome E allocates w3 result
    (r.1, self1, r.2)

/-- A sequence of `Eval_JS` calls on one handle, one per (script, sourceUrl)
pair, each seeing the handle and the world the previous one left. -/
def evalAll {σ : Type} (E : Engine σ) :
    ChakraHandle → World σ → List (List Byte × List Byte) → ChakraHandle × World σ
  | self, w, [] => (self, w)
  | self, w, (script, sourceUrl) :: rest =>
    let r := ChakraHandle.Eval_JS E self w script sourceUrl
    evalAll E r.2.1 r.2.2 rest

/-! ## `Echo` -/

/-- Translation of the native function `Echo`.  `arguments` is the array the
engine passes; reading `arguments[1]` outside it gives `none`.  Streaming a
`char*` writes its bytes up to the first zero byte, `std::endl` writes a line
feed. -/
def Echo {σ : Type} (E : Engine σ) (w : World σ) (_callee : JsValueRef)
    (_isConstructCall : Bool) (arguments : List JsValueRef) (argumentCount : Nat)
    (_callbackState : Option Nat) : Option (JsValueRef × World σ) :=
  if argumentCount >= 2 then
    match arguments[1]? with
    | some argument =>
      let r := JsValueRefToStr E w argument
      some (JS_INVALID_REFERENCE, r.2.print (cString r.1 ++ [10]))
    | none => none
  else
    some (JS_INVALID_REFERENCE, w)

/-! ## Reading the call log -/

/-- The cookies (`sourceContext` arguments) of the `JsRun` calls of a log. -/
def runCookies (trace : List Call) : List Int :=
  trace.filterMap fun c =>
    match c with
    | .JsRun _ cookie _ _ => some cookie
    | _ => none

/-- The values handed to `JsConvertValueToString` in a log. -/
def convertedValues (trace : List Call) : List JsValueRef :=
  trace.filterMap fun c =>
    match c with
    | .JsConvertValueToString v => some v
    | _ => none

/-- The memory regions wrapped as external array buffers in a log: the
first `byteLength` bytes at the data pointer. -/
def externalBuffers (trace : List Call) : List (List Byte) :=
  trace.filterMap fun c =>
    match c with
    | .JsCreateExternalArrayBuffer data byteLength => some (data.take byteLength)
    | _ => none

/-! ## A small engine to run the shim on

`miniEngine` is a concrete `Engine`.  Its values are byte strings, external
buffers, error objects carrying a `message`, an object whose string coercion
throws, and plain objects.  Its script language has four forms, told apart by
the first byte of the script: `!text` throws an error whose message is
`text`; `#` throws an error whose message is an object that throws when
coerced to a string; `?` does not compile; any other script evaluates to the
string of its own text. -/

inductive MiniVal
  | str (bytes : List Byte)
  | buffer (bytes : List Byte)
  | error (message : JsValueRef)
  | thrower
  | object
  deriving DecidableEq, Repr

/-- State of `miniEngine`: the heap (reference `n + 1` is cell `n`), the
pending exception, and whether the next runtime creation runs out of memory. -/
structure MiniState where
  heap : List MiniVal
  pending : Option JsValueRef
  outOfMemory : Bool
  deriving DecidableEq, Repr

def MiniState.lookup (st : MiniState) (r : JsRef) : Option MiniVal :=
  match r with
  | 0 => none
  | n + 1 => st.heap.get? n

def MiniState.alloc (st : MiniState) (v : MiniVal) : Ret JsValueRef MiniState :=
  { code := JsNoError, out := st.heap.length + 1, state := { st with heap := st.heap ++ [v] } }

def MiniState.fail (st : MiniState) (code : JsErrorCode) : Ret JsRef MiniState :=
  { code := code, out := JS_INVALID_REFERENCE, state := st }

/-- Throwing in `miniEngine`: the error object becomes the pending exception. -/
def MiniState.throwError (st : MiniState) (message : JsValueRef) : Ret JsValueRef MiniState :=
  let e := st.alloc (.error message)
  { code := JsErrorScriptException, out := JS_INVALID_REFERENCE,
    state := { e.state with pending := some e.out } }

def miniRun (st : MiniState) (script : JsValueRef) : Ret JsValueRef MiniState :=
  match st.lookup script with
  | some (.buffer bytes) =>
    if bytes.head? = some 33 then
      let m := st.alloc (.str bytes.tail)
      m.state.throwError m.out
    else if bytes.head? = some 35 then
      let t := st.alloc .thrower
      t.state.throwError t.out
    else if bytes.head? = some 63 then
      st.fail JsErrorScriptCompile
    else
      st.alloc (.str bytes)
  | _ => st.fail JsErrorInvalidArgument

def miniGetProperty (st : MiniState) (object : JsValueRef) (propertyId : JsPropertyIdRef) :
    Ret JsValueRef MiniState :=
  match st.lookup object, st.lookup propertyId with
  | some (.error message), some (.str name) =>
    if name = messageName then
      { code := JsNoError, out := message, state := st }
    else
      st.fail JsErrorInvalidArgument
  | _, _ => st.fail JsErrorInvalidArgument

def miniConvertValueToString (st : MiniState) (value : JsValueRef) : Ret JsValueRef MiniState :=
  match st.lookup value with
  | some (.str _) => { code := JsNoError, out := value, state := st }
  | some .thrower =>
    let t := st.alloc (.str [])
    t.state.throwError t.out
  | some _ => st.alloc (.str [111, 98, 106, 101, 99, 116])
  | none => st.fail JsErrorInvalidArgument

def miniCopyString (st : MiniState) (value : JsValueRef) (buffer : Option (List Byte))
    (bufferSize : Nat) : CopyRet MiniState :=
  match st.lookup value with
  | some (.str bytes) =>
    match buffer with
    | none => { code := JsNoError, written := [], length := bytes.length, state := st }
    | some _ =>
      { code := JsNoError, written := bytes.take bufferSize,
        length := (bytes.take bufferSize).length, state := st }
  | _ => { code := JsErrorInvalidArgument, written := [], length := 0, state := st }

def miniEngine : Engine MiniState where
  JsCreateRuntime st _ :=
    if st.outOfMemory then st.fail JsErrorOutOfMemory
    else { code := JsNoError, out := 1, state := st }
  JsCreateContext st runtime :=
    if runtime = 0 then st.fail JsErrorInvalidArgument
    else { code := JsNoError, out := 1, state := st }
  JsSetCurrentContext st _ := { code := JsNoError, state := st }
  JsDisposeRuntime st _ := { code := JsNoError, state := st }
  JsCreateString st content length := st.alloc (.str (content.take length))
  JsCreateExternalArrayBuffer st data byteLength := st.alloc (.buffer (data.take byteLength))
  JsRun st script _ _ _ := miniRun st script
  JsGetAndClearException st :=
    match st.pending with
    | some e => { code := JsNoError, out := e, state := { st with pending := none } }
    | none => st.fail JsErrorInvalidArgument
  JsCreatePropertyId st name length := st.alloc (.str (name.take length))
  JsGetProperty := miniGetProperty
  JsSetProperty st _ _ _ _ := { code := JsNoError, state := st }
  JsGetGlobalObject st := st.alloc .object
  JsCreateFunction st _ := st.alloc .object
  JsConvertValueToString := miniConvertValueToString
  JsCopyString st value buffer bufferSize _ := miniCopyString st value buffer bufferSize
  hasException st := st.pending.isSome

/-- A fresh process: empty heap, nothing pending, nothing logged or printed. -/
def miniWorld : World MiniState :=
  { eng := { heap := [], pending := none, outOfMemory := false }, trace := [], stdout := [] }

/-- A fresh process whose engine cannot create a runtime. -/
def miniWorldOutOfMemory : World MiniState :=
  { eng := { heap := [], pending := none, outOfMemory := true }, trace := [], stdout := [] }

/-- The fresh process after it created one engine string from the host bytes
`s` (all of them, zero bytes included); the string is reference `1`. -/
def miniWorldWith (s : List Byte) : World MiniState :=
  miniWorld.after (.JsCreateString s s.length)
    (miniEngine.JsCreateString miniWorld.eng s s.length).state

/-- Three scripts of `miniEngine`, each with an empty source url: `1`
evaluates, `!hi` throws, `?` does not compile. -/
def miniScripts : List (List Byte × List Byte) :=
  [([49], []), ([33, 104, 105], []), ([63], [])]

/-! ## Names for the engine's answers inside the host functions -/

/-- The engine's answer to the `JsConvertValueToString` call of
`JsValueRefToStr E w v`. -/
def coerced {σ : Type} (E : Engine σ) (w : World σ) (v : JsValueRef) : Ret JsValueRef σ :=
  E.JsConvertValueToString w.eng v

/-- The engine's answer to the first `JsCopyString` call of
`JsValueRefToStr E w v`, the one with a null destination. -/
def lengthQuery {σ : Type} (E : Engine σ) (w : World σ) (v : JsValueRef) : CopyRet σ :=
  E.JsCopyString (coerced E w v).state (coerced E w v).out none 0 true

/-- The engine's answer to the second `JsCopyString` call of
`JsValueRefToStr E w v`, the one that fills the buffer. -/
def dataCopy {σ : Type} (E : Engine σ) (w : World σ) (v : JsValueRef) : CopyRet σ :=
  E.JsCopyString (lengthQuery E w v).state (coerced E w v).out
    (some (List.replicate ((lengthQuery E w v).length + 1) 0))
    ((lengthQuery E w v).length + 1) false

/-- The number of bytes `JsValueRefToStr E w v` asks `make_unique` for:
the reported length plus one, in `size_t` arithmetic. -/
def allocationSize {σ : Type} (E : Engine σ) (w : World σ) (v : JsValueRef) : Nat :=
  ((lengthQuery E w v).length % sizeModulus + 1) % sizeModulus

/-- The world in which `JsValueRefToStr E w v` asks for its buffer, after
the coercion and the length query. -/
def worldAtAllocation {σ : Type} (E : Engine σ) (w : World σ) (v : JsValueRef) : World σ :=
  { eng := (lengthQuery E w v).state,
    trace := w.trace ++ [.JsConvertValueToString v,
      .JsCopyString (coerced E w v).out none 0 true],
    stdout := w.stdout }

/-- The three engine calls of `JsValueRefToStr E w v`, in order. -/
def conversionCalls {σ : Type} (E : Engine σ) (w : World σ) (v : JsValueRef) : List Call :=
  [.JsConvertValueToString v,
   .JsCopyString (coerced E w v).out none 0 true,
   .JsCopyString (coerced E w v).out
     (some (List.replicate ((lengthQuery E w v).length + 1) 0))
     ((lengthQuery E w v).length + 1) false]

/-- The engine's answer to the `JsCreateString` call of
`Eval_JS E self w script sourceUrl`. -/
def sourceUrlAnswer {σ : Type} (E : Engine σ) (w : World σ) (sourceUrl : List Byte) :
    Ret JsValueRef σ :=
  E.JsCreateString w.eng sourceUrl (strlen sourceUrl)

/-- The engine's answer to the `JsCreateExternalArrayBuffer` call of
`Eval_JS E self w script sourceUrl`. -/
def scriptAnswer {σ : Type} (E : Engine σ) (w : World σ) (script sourceUrl : List Byte) :
    Ret JsValueRef σ :=
  E.JsCreateExternalArrayBuffer (sourceUrlAnswer E w sourceUrl).state script
    (strlen script % uintModulus)

/-- The engine's answer to the `JsRun` call of `Eval_JS E self w script sourceUrl`. -/
def runAnswer {σ : Type} (E : Engine σ) (self : ChakraHandle) (w : World σ)
    (script sourceUrl : List Byte) : Ret JsValueRef σ :=
  E.JsRun (scriptAnswer E w script sourceUrl).state (scriptAnswer E w script sourceUrl).out
    self.callTimes (sourceUrlAnswer E w sourceUrl).out .JsParseScriptAttributeNone

/-- The three engine calls `Eval_JS E self w script sourceUrl` makes up to
and including `JsRun`. -/
def runCalls {σ : Type} (E : Engine σ) (self : ChakraHandle) (w : World σ)
    (script sourceUrl : List Byte) : List Call :=
  [.JsCreateString sourceUrl (strlen sourceUrl),
   .JsCreateExternalArrayBuffer script (strlen script % uintModulus),
   .JsRun (scriptAnswer E w script sourceUrl).out self.callTimes
     (sourceUrlAnswer E w sourceUrl).out .JsParseScriptAttributeNone]

/-- The world of `Eval_JS E self w script sourceUrl` right after its `JsRun`
call, where `ErrorCheck` looks at the status. -/
def worldAfterRun {σ : Type} (E : Engine σ) (self : ChakraHandle) (w : World σ)
    (script sourceUrl : List Byte) : World σ :=
  { eng := (runAnswer E self w script sourceUrl).state,
    trace := w.trace ++ runCalls E self w script sourceUrl,
    stdout := w.stdout }

/-- The engine's answer to the `JsGetAndClearException` call of `ErrorCheck`
entered in world `w`. -/
def exceptionAnswer {σ : Type} (E : Engine σ) (w : World σ) : Ret JsValueRef σ :=
  E.JsGetAndClearException w.eng

/-- The engine's answer to the `JsCreatePropertyId` call of `ErrorCheck`. -/
def messageIdAnswer {σ : Type} (E : Engine σ) (w : World σ) : Ret JsPropertyIdRef σ :=
  E.JsCreatePropertyId (exceptionAnswer E w).state messageName 7

/-- The engine's answer to the `JsGetProperty` call of `ErrorCheck`: its
`out` is the `message` property of the exception object. -/
def messageAnswer {σ : Type} (E : Engine σ) (w : World σ) : Ret JsValueRef σ :=
  E.JsGetProperty (messageIdAnswer E w).state (exceptionAnswer E w).out (messageIdAnswer E w).out

/-- The three engine calls of `ErrorCheck` before the conversion. -/
def exceptionCalls {σ : Type} (E : Engine σ) (w : World σ) : List Call :=
  [.JsGetAndClearException,
   .JsCreatePropertyId messageName 7,
   .JsGetProperty (exceptionAnswer E w).out (messageIdAnswer E w).out]

/-- The world in which `ErrorCheck`, entered in world `w`, converts the message. -/
def worldAtMessage {σ : Type} (E : Engine σ) (w : World σ) : World σ :=
  { eng := (messageAnswer E w).state, trace := w.trace ++ exceptionCalls E w, stdout := w.stdout }

/-- The engine's answer to `JsCreateRuntime` in the constructor run in world `w`. -/
def runtimeAnswer {σ : Type} (E : Engine σ) (w : World σ) : Ret JsRuntimeHandle σ :=
  E.JsCreateRuntime w.eng .JsRuntimeAttributeNone

/-- The engine's answer to `JsCreateContext` in the constructor run in world `w`. -/
def contextAnswer {σ : Type} (E : Engine σ) (w : World σ) : Ret JsContextRef σ :=
  E.JsCreateContext (runtimeAnswer E w).state (runtimeAnswer E w).out

/-- The engine's answer to `JsSetCurrentContext` in the constructor. -/
def currentContextAnswer {σ : Type} (E : Engine σ) (w : World σ) : RetUnit σ :=
  E.JsSetCurrentContext (contextAnswer E w).state (contextAnswer E w).out

/-- The engine's answer to `JsCreateFunction` in `setEcho`, called by the
constructor run in world `w`: its `out` is the function wrapping `Echo`. -/
def functionAnswer {σ : Type} (E : Engine σ) (w : World σ) : Ret JsValueRef σ :=
  E.JsCreateFunction (currentContextAnswer E w).state .Echo

/-- The engine's answer to `JsGetGlobalObject` in `setEcho`. -/
def globalObjectAnswer {σ : Type} (E : Engine σ) (w : World σ) : Ret JsValueRef σ :=
  E.JsGetGlobalObject (functionAnswer E w).state

/-- The engine's answer to `JsCreatePropertyId` in `setEcho`: its `out` is
the property id of the name `echo`. -/
def echoIdAnswer {σ : Type} (E : Engine σ) (w : World σ) : Ret JsPropertyIdRef σ :=
  E.JsCreatePropertyId (globalObjectAnswer E w).state echoName 4

/-- The engine's answer to `JsSetProperty` in `setEcho`. -/
def setPropertyAnswer {σ : Type} (E : Engine σ) (w : World σ) : RetUnit σ :=
  E.JsSetProperty (echoIdAnswer E w).state (globalObjectAnswer E w).out (echoIdAnswer E w).out
    (functionAnswer E w).out false

/-- The seven engine calls of the constructor run in world `w`, in order. -/
def constructorCalls {σ : Type} (E : Engine σ) (w : World σ) : List Call :=
  [.JsCreateRuntime .JsRuntimeAttributeNone,
   .JsCreateContext (runtimeAnswer E w).out,
   .JsSetCurrentContext (contextAnswer E w).out,
   .JsCreateFunction .Echo,
   .JsGetGlobalObject,
   .JsCreatePropertyId echoName 4,
   .JsSetProperty (globalObjectAnswer E w).out (echoIdAnswer E w).out
     (functionAnswer E w).out false]

/-- An allocator that hands out every buffer asked for. -/
def grantAll : Nat → Bool := fun _ => true

/-- An allocator that hands out nothing. -/
def grantNone : Nat → Bool := fun _ => false

/-- The `n` cookies a handle passes from `callTimes = c` on: each evaluation
passes the current value and stores the wrapped increment. -/
def cookiesFrom (c : Int) : Nat → List Int
  | 0 => []
  | n + 1 => c :: cookiesFrom (wrapInt32 (c + 1)) n

/-! ## Host memory lemmas -/

theorem length_writeBytes (buffer written : List Byte) :
    (writeBytes buffer written).length = buffer.length := by
  unfold writeBytes
  rw [List.length_take, List.length_append, List.length_drop]
  omega

theorem getElem?_writeBytes (buffer written : List Byte) (i : Nat)
    (hi : i < written.length) (hb : i < buffer.length) :
    (writeBytes buffer written)[i]? = written[i]? := by
  unfold writeBytes
  rw [List.getElem?_take_of_lt hb, List.getElem?_append_left hi]

theorem writeBytes_exact (written : List Byte) (k : Nat) :
    writeBytes (List.replicate (written.length + k) 0) written
      = written ++ List.replicate k 0 := by
  unfold writeBytes
  have h : List.drop written.length (List.replicate (written.length + k) (0 : Byte))
      = List.replicate k 0 := by
    rw [List.drop_replicate]; congr 1; omega
  rw [h, List.length_replicate]
  apply List.take_of_length_le
  rw [List.length_append, List.length_replicate]

theorem set_append_singleton (l : List Byte) (a b : Byte) :
    (l ++ [a]).set l.length b = l ++ [b] := by
  induction l with
  | nil => rfl
  | cons x xs ih => simp [List.set, ih]

/-! ## `JsValueRefToStr`: what it returns and what it calls -/

theorem JsValueRefToStr_buffer_eq {σ : Type} (E : Engine σ) (w : World σ) (v : JsValueRef) :
    (JsValueRefToStr E w v).1
      = (writeBytes (List.replicate ((lengthQuery E w v).length + 1) 0)
          (dataCopy E w v).written).set (lengthQuery E w v).length 0 := rfl

theorem JsValueRefToStr_world_eq {σ : Type} (E : Engine σ) (w : World σ) (v : JsValueRef) :
    (JsValueRefToStr E w v).2
      = { eng := (dataCopy E w v).state, trace := w.trace ++ conversionCalls E w v,
          stdout := w.stdout } := by
  simp [JsValueRefToStr, World.after, conversionCalls, dataCopy, lengthQuery, coerced]

theorem JsValueRefToStr_length {σ : Type} (E : Engine σ) (w : World σ) (v : JsValueRef) :
    (JsValueRefToStr E w v).1.length = (lengthQuery E w v).length + 1 := by
  rw [JsValueRefToStr_buffer_eq, List.length_set, length_writeBytes, List.length_replicate]

theorem JsValueRefToStr_terminator {σ : Type} (E : Engine σ) (w : World σ) (v : JsValueRef) :
    (JsValueRefToStr E w v).1[(lengthQuery E w v).length]? = some 0 := by
  rw [JsValueRefToStr_buffer_eq, List.getElem?_set_self]
  · rw [length_writeBytes, List.length_replicate]; omega

theorem JsValueRefToStr_payload {σ : Type} (E : Engine σ) (w : World σ) (v : JsValueRef)
    (i : Nat) (hi : i < (lengthQuery E w v).length) (hw : i < (dataCopy E w v).written.length) :
    (JsValueRefToStr E w v).1[i]? = (dataCopy E w v).written[i]? := by
  rw [JsValueRefToStr_buffer_eq, List.getElem?_set_ne (by omega)]
  apply getElem?_writeBytes _ _ _ hw
  rw [List.length_replicate]; omega

theorem JsValueRefToStr_exact {σ : Type} (E : Engine σ) (w : World σ) (v : JsValueRef)
    (h : (dataCopy E w v).written.length = (lengthQuery E w v).length) :
    (JsValueRefToStr E w v).1 = (dataCopy E w v).written ++ [0] := by
  rw [JsValueRefToStr_buffer_eq, ← h, writeBytes_exact]
  exact set_append_singleton _ _ _

/-! ## Claims on `JsValueRefToStr` -/

/-- The buffer returned for a value whose coercion is the value itself,
whose length query reports `s.length` and whose data copy stores `s`. -/
theorem JsValueRefToStr_of_string {σ : Type} (E : Engine σ) (w : World σ) (s : List Byte)
    (v : JsValueRef) (st2 st3 : σ)
    (hconv : (E.JsConvertValueToString w.eng v).out = v)
    (hst2 : (E.JsConvertValueToString w.eng v).state = st2)
    (hlen : (E.JsCopyString st2 v none 0 true).length = s.length)
    (hst3 : (E.JsCopyString st2 v none 0 true).state = st3)
    (hcopy : (E.JsCopyString st3 v (some (List.replicate (s.length + 1) 0)) (s.length + 1)
      false).written = s) :
    (JsValueRefToStr E w v).1 = s ++ [0] := by
  have hc : (coerced E w v).out = v := hconv
  have hcs : (coerced E w v).state = st2 := hst2
  have hl : (lengthQuery E w v).length = s.length := by
    unfold lengthQuery; rw [hc, hcs]; exact hlen
  have hls : (lengthQuery E w v).state = st3 := by
    unfold lengthQuery; rw [hc, hcs]; exact hst3
  have hd : (dataCopy E w v).written = s := by
    unfold dataCopy; rw [hc, hl, hls]; exact hcopy
  rw [JsValueRefToStr_exact E w v (by rw [hd, hl]), hd]

/-- C1: round trip of the Value Bridge.  Let `v` be the engine string created
from the host bytes `s`, in an engine where coercing `v` gives `v` itself,
the length query on `v` reports `s.length` and the data copy of `v` stores
the bytes of `s`.  Then the buffer `JsValueRefToStr` returns for `v` starts
with the bytes of `s`, holds a zero byte at position `s.length`, and is
`s` followed by that zero byte. -/
theorem JsValueRefToStr_roundtrip {σ : Type} (E : Engine σ) (w : World σ) (s : List Byte)
    (v : JsValueRef) (st1 st2 st3 : σ)
    (hcreate : (E.JsCreateString w.eng s s.length).out = v)
    (hst1 : (E.JsCreateString w.eng s s.length).state = st1)
    (hconv : (E.JsConvertValueToString st1 v).out = v)
    (hst2 : (E.JsConvertValueToString st1 v).state = st2)
    (hlen : (E.JsCopyString st2 v none 0 true).length = s.length)
    (hst3 : (E.JsCopyString st2 v none 0 true).state = st3)
    (hcopy : (E.JsCopyString st3 v (some (List.replicate (s.length + 1) 0)) (s.length + 1)
      false).written = s) :
    (JsValueRefToStr E (w.after (.JsCreateString s s.length) st1) v).1.take s.length = s ∧
    (JsValueRefToStr E (w.after (.JsCreateString s s.length) st1) v).1[s.length]? = some 0 ∧
    (JsValueRefToStr E (w.after (.JsCreateString s s.length) st1) v).1 = s ++ [0] := by
  have hall : (JsValueRefToStr E (w.after (.JsCreateString s s.length) st1) v).1 = s ++ [0] :=
    JsValueRefToStr_of_string E (w.after (.JsCreateString s s.length) st1) s v st2 st3
      hconv hst2 hlen hst3 hcopy
  subst hcreate hst1
  refine ⟨?_, ?_, hall⟩
  · rw [hall, List.take_left]
  · rw [hall]; simp

/-- Witness of C1: the bytes `hi` through `miniEngine`. -/
theorem JsValueRefToStr_roundtrip_witness :
    (JsValueRefToStr miniEngine (miniWorldWith [104, 105]) 1).1 = [104, 105, 0] :=
  (JsValueRefToStr_roundtrip miniEngine miniWorld [104, 105] 1
    (miniWorldWith [104, 105]).eng (miniWorldWith [104, 105]).eng (miniWorldWith [104, 105]).eng
    (by decide) (by decide) (by decide) (by decide) (by decide) (by decide) (by decide)).2.2

/-- C2: layout of the returned buffer.  If the length query on the coerced
string reports `n`, the buffer `JsValueRefToStr` returns has exactly `n + 1`
bytes; each of its first `n` bytes is the byte the engine stored at that
position in the data copy; the byte at index `n` is zero; when the engine
stored exactly `n` bytes the buffer is those bytes followed by one zero byte;
and for `n = 0` the buffer is the one byte `0`. -/
theorem JsValueRefToStr_layout {σ : Type} (E : Engine σ) (w : World σ) (v : JsValueRef)
    (n : Nat) (hn : (lengthQuery E w v).length = n) :
    (JsValueRefToStr E w v).1.length = n + 1 ∧
    (∀ i, i < n → i < (dataCopy E w v).written.length →
      (JsValueRefToStr E w v).1[i]? = (dataCopy E w v).written[i]?) ∧
    (JsValueRefToStr E w v).1[n]? = some 0 ∧
    ((dataCopy E w v).written.length = n →
      (JsValueRefToStr E w v).1 = (dataCopy E w v).written ++ [0]) ∧
    (n = 0 → (JsValueRefToStr E w v).1 = [0]) := by
  subst hn
  refine ⟨JsValueRefToStr_length E w v, ?_, JsValueRefToStr_terminator E w v, ?_, ?_⟩
  · intro i hi hw
    exact JsValueRefToStr_payload E w v i hi hw
  · intro h
    exact JsValueRefToStr_exact E w v h
  · intro h0
    have hlen := JsValueRefToStr_length E w v
    have hterm := JsValueRefToStr_terminator E w v
    rw [h0] at hlen hterm
    match hr : (JsValueRefToStr E w v).1, hlen, hterm with
    | [b], _, hterm =>
      simp at hterm
      rw [hterm]

/-- Witness of C2: a two-byte string and the empty string in `miniEngine`. -/
theorem JsValueRefToStr_layout_witness :
    (lengthQuery miniEngine (miniWorldWith [104, 105]) 1).length = 2 ∧
    (JsValueRefToStr miniEngine (miniWorldWith [104, 105]) 1).1 = [104, 105] ++ [0] ∧
    (JsValueRefToStr miniEngine (miniWorldWith []) 1).1 = [0] :=
  ⟨by decide,
   (JsValueRefToStr_layout miniEngine (miniWorldWith [104, 105]) 1 2 (by decide)).2.2.2.1
     (by decide),
   (JsValueRefToStr_layout miniEngine (miniWorldWith []) 1 0 (by decide)).2.2.2.2 rfl⟩

/-! ## `JsValueRefToStr.outcome`: every run -/

theorem JsValueRefToStr_outcome_refused {σ : Type} (E : Engine σ) (allocates : Nat → Bool)
    (w : World σ) (v : JsValueRef) (h : allocates (allocationSize E w v) = false) :
    JsValueRefToStr.outcome E allocates w v = (.bad_alloc, worldAtAllocation E w v) := by
  unfold allocationSize lengthQuery coerced at h
  simp only [JsValueRefToStr.outcome, World.after, h, Bool.false_eq_true, if_false,
    worldAtAllocation, lengthQuery, coerced, List.append_assoc, List.cons_append,
    List.nil_append]

theorem JsValueRefToStr_outcome_granted {σ : Type} (E : Engine σ) (allocates : Nat → Bool)
    (w : World σ) (v : JsValueRef) (h : allocates (allocationSize E w v) = true)
    (hfit : (lengthQuery E w v).length + 1 < sizeModulus) :
    JsValueRefToStr.outcome E allocates w v
      = (.returned (JsValueRefToStr E w v).1, (JsValueRefToStr E w v).2) := by
  have h1 : (lengthQuery E w v).length % sizeModulus = (lengthQuery E w v).length :=
    Nat.mod_eq_of_lt (by omega)
  have h2 : ((lengthQuery E w v).length + 1) % sizeModulus = (lengthQuery E w v).length + 1 :=
    Nat.mod_eq_of_lt hfit
  unfold allocationSize at h
  rw [h1, h2] at h
  unfold lengthQuery coerced at h h1 h2
  simp only [JsValueRefToStr.outcome, JsValueRefToStr, World.after, h1, h2, h, if_true,
    Nat.lt_succ_self]

theorem JsValueRefToStr_outcome_starts {σ : Type} (E : Engine σ) (allocates : Nat → Bool)
    (w : World σ) (v : JsValueRef) :
    ∃ rest, (JsValueRefToStr.outcome E allocates w v).2.trace
      = w.trace ++ (.JsConvertValueToString v
          :: .JsCopyString (coerced E w v).out none 0 true :: rest) := by
  unfold JsValueRefToStr.outcome
  simp only [World.after, coerced, List.append_assoc, List.cons_append, List.nil_append]
  split
  · split
    · exact ⟨_, rfl⟩
    · exact ⟨_, rfl⟩
  · exact ⟨[], rfl⟩

/-- C8 as the spec states it fails: in `miniEngine` the coercion of the null
reference and both copy calls report `JsErrorInvalidArgument`; once the
one-byte buffer is allocated `JsValueRefToStr` still returns a buffer, the
single byte `0`. -/
theorem JsValueRefToStr_returns_buffer_on_failure :
    (coerced miniEngine miniWorld JS_INVALID_REFERENCE).code ≠ JsNoError ∧
    (lengthQuery miniEngine miniWorld JS_INVALID_REFERENCE).code ≠ JsNoError ∧
    (dataCopy miniEngine miniWorld JS_INVALID_REFERENCE).code ≠ JsNoError ∧
    (JsValueRefToStr.outcome miniEngine grantAll miniWorld JS_INVALID_REFERENCE).1
      = .returned [0] := by
  decide

/-- C8 amended: `JsValueRefToStr` has no conversion error and looks at no
status.  For every engine, whatever the coercion and the length query
report, it makes both calls in order and then asks for a buffer of reported
length plus one bytes.  When that allocation fails it is left by
`std::bad_alloc` after those two calls and returns no buffer.  When the
allocation succeeds (and the reported length plus one fits a `size_t`) it
makes the data copy as third call and, whatever the three statuses, returns
a buffer of reported length plus one bytes with a zero byte at the reported
length. -/
theorem JsValueRefToStr_ignores_status {σ : Type} (E : Engine σ) (allocates : Nat → Bool)
    (w : World σ) (v : JsValueRef) :
    (∃ rest, (JsValueRefToStr.outcome E allocates w v).2.trace
      = w.trace ++ (.JsConvertValueToString v
          :: .JsCopyString (coerced E w v).out none 0 true :: rest)) ∧
    (allocates (allocationSize E w v) = false →
      (JsValueRefToStr.outcome E allocates w v).1 = .bad_alloc ∧
      (JsValueRefToStr.outcome E allocates w v).2.trace
        = w.trace ++ [.JsConvertValueToString v,
            .JsCopyString (coerced E w v).out none 0 true]) ∧
    (allocates (allocationSize E w v) = true →
      (lengthQuery E w v).length + 1 < sizeModulus →
      (JsValueRefToStr.outcome E allocates w v).1 = .returned (JsValueRefToStr E w v).1 ∧
      (JsValueRefToStr.outcome E allocates w v).2.trace = w.trace ++ conversionCalls E w v ∧
      (JsValueRefToStr E w v).1.length = (lengthQuery E w v).length + 1 ∧
      (JsValueRefToStr E w v).1[(lengthQuery E w v).length]? = some 0) := by
  refine ⟨JsValueRefToStr_outcome_starts E allocates w v, ?_, ?_⟩
  · intro h
    rw [JsValueRefToStr_outcome_refused E allocates w v h]
    exact ⟨rfl, rfl⟩
  · intro h hfit
    rw [JsValueRefToStr_outcome_granted E allocates w v h hfit, JsValueRefToStr_world_eq]
    exact ⟨rfl, rfl, JsValueRefToStr_length E w v, JsValueRefToStr_terminator E w v⟩

/-- Witness of C8 amended: the null reference in `miniEngine`, where all
three calls fail: with the buffer granted the byte `0` is returned, with the
buffer refused the function is left by `std::bad_alloc`. -/
theorem JsValueRefToStr_ignores_status_witness :
    grantAll (allocationSize miniEngine miniWorld JS_INVALID_REFERENCE) = true ∧
    (JsValueRefToStr.outcome miniEngine grantAll miniWorld JS_INVALID_REFERENCE).1
      = .returned [0] ∧
    grantNone (allocationSize miniEngine miniWorld JS_INVALID_REFERENCE) = false ∧
    (JsValueRefToStr.outcome miniEngine grantNone miniWorld JS_INVALID_REFERENCE).1
      = .bad_alloc :=
  ⟨rfl,
   ((JsValueRefToStr_ignores_status miniEngine grantAll miniWorld JS_INVALID_REFERENCE).2.2
      rfl (by decide)).1.trans (by decide),
   rfl,
   ((JsValueRefToStr_ignores_status miniEngine grantNone miniWorld JS_INVALID_REFERENCE).2.1
      rfl).1⟩

/-! ## `ErrorCheck` and `Eval_JS`: the two paths -/

theorem ErrorCheck_exception {σ : Type} (E : Engine σ) (w : World σ) (errCode : JsErrorCode)
    (h : errCode = JsErrorScriptException) :
    ErrorCheck E w errCode
      = some (JsValueRefToStr E (worldAtMessage E w) (messageAnswer E w).out) := by
  subst h
  simp [ErrorCheck, JsErrorScriptException, JsNoError, worldAtMessage, messageAnswer,
    messageIdAnswer, exceptionAnswer, exceptionCalls, World.after, messageName]

theorem ErrorCheck_other {σ : Type} (E : Engine σ) (w : World σ) (errCode : JsErrorCode)
    (h : errCode ≠ JsErrorScriptException) :
    ErrorCheck E w errCode = none := by
  simp [ErrorCheck, h]

theorem Eval_JS_eq {σ : Type} (E : Engine σ) (self : ChakraHandle) (w : World σ)
    (script sourceUrl : List Byte) :
    ChakraHandle.Eval_JS E self w script sourceUrl
      = match ErrorCheck E (worldAfterRun E self w script sourceUrl)
          (runAnswer E self w script sourceUrl).code with
        | some r => (r.1, { self with callTimes := wrapInt32 (self.callTimes + 1) }, r.2)
        | none =>
          ((JsValueRefToStr E (worldAfterRun E self w script sourceUrl)
              (runAnswer E self w script sourceUrl).out).1,
            { self with callTimes := wrapInt32 (self.callTimes + 1) },
            (JsValueRefToStr E (worldAfterRun E self w script sourceUrl)
              (runAnswer E self w script sourceUrl).out).2) := by
  simp [ChakraHandle.Eval_JS, worldAfterRun, runAnswer, runCalls, scriptAnswer, sourceUrlAnswer,
    World.after]

theorem Eval_JS_exception_path {σ : Type} (E : Engine σ) (self : ChakraHandle) (w : World σ)
    (script sourceUrl : List Byte)
    (h : (runAnswer E self w script sourceUrl).code = JsErrorScriptException) :
    ChakraHandle.Eval_JS E self w script sourceUrl
      = ((JsValueRefToStr E (worldAtMessage E (worldAfterRun E self w script sourceUrl))
            (messageAnswer E (worldAfterRun E self w script sourceUrl)).out).1,
          { self with callTimes := wrapInt32 (self.callTimes + 1) },
          (JsValueRefToStr E (worldAtMessage E (worldAfterRun E self w script sourceUrl))
            (messageAnswer E (worldAfterRun E self w script sourceUrl)).out).2) := by
  rw [Eval_JS_eq, ErrorCheck_exception E _ _ h]

theorem Eval_JS_result_path {σ : Type} (E : Engine σ) (self : ChakraHandle) (w : World σ)
    (script sourceUrl : List Byte)
    (h : (runAnswer E self w script sourceUrl).code ≠ JsErrorScriptException) :
    ChakraHandle.Eval_JS E self w script sourceUrl
      = ((JsValueRefToStr E (worldAfterRun E self w script sourceUrl)
            (runAnswer E self w script sourceUrl).out).1,
          { self with callTimes := wrapInt32 (self.callTimes + 1) },
          (JsValueRefToStr E (worldAfterRun E self w script sourceUrl)
            (runAnswer E self w script sourceUrl).out).2) := by
  rw [Eval_JS_eq, ErrorCheck_other E _ _ h]

theorem convertedValues_conversionCalls {σ : Type} (E : Engine σ) (w : World σ)
    (v : JsValueRef) : convertedValues (conversionCalls E w v) = [v] := rfl

theorem convertedValues_exceptionCalls {σ : Type} (E : Engine σ) (w : World σ) :
    convertedValues (exceptionCalls E w) = [] := rfl

theorem convertedValues_runCalls {σ : Type} (E : Engine σ) (self : ChakraHandle) (w : World σ)
    (script sourceUrl : List Byte) :
    convertedValues (runCalls E self w script sourceUrl) = [] := rfl

theorem convertedValues_append (a b : List Call) :
    convertedValues (a ++ b) = convertedValues a ++ convertedValues b := by
  simp [convertedValues, List.filterMap_append]

/-- The log of an evaluation that ends in a script exception. -/
theorem Eval_JS_exception_trace {σ : Type} (E : Engine σ) (self : ChakraHandle) (w : World σ)
    (script sourceUrl : List Byte)
    (h : (runAnswer E self w script sourceUrl).code = JsErrorScriptException) :
    (ChakraHandle.Eval_JS E self w script sourceUrl).2.2.trace
      = w.trace ++ (runCalls E self w script sourceUrl
          ++ (exceptionCalls E (worldAfterRun E self w script sourceUrl)
          ++ conversionCalls E (worldAtMessage E (worldAfterRun E self w script sourceUrl))
              (messageAnswer E (worldAfterRun E self w script sourceUrl)).out)) := by
  rw [Eval_JS_exception_path E self w script sourceUrl h, JsValueRefToStr_world_eq]
  simp [worldAtMessage, worldAfterRun]

/-- The log of an evaluation whose run reports any other status. -/
theorem Eval_JS_result_trace {σ : Type} (E : Engine σ) (self : ChakraHandle) (w : World σ)
    (script sourceUrl : List Byte)
    (h : (runAnswer E self w script sourceUrl).code ≠ JsErrorScriptException) :
    (ChakraHandle.Eval_JS E self w script sourceUrl).2.2.trace
      = w.trace ++ (runCalls E self w script sourceUrl
          ++ conversionCalls E (worldAfterRun E self w script sourceUrl)
              (runAnswer E self w script sourceUrl).out) := by
  rw [Eval_JS_result_path E self w script sourceUrl h, JsValueRefToStr_world_eq]
  simp [worldAfterRun]

/-! ## Claims on `Eval_JS` -/

/-- C3: when the engine's run call reports `JsErrorScriptException`,
`Eval_JS` returns exactly what `JsValueRefToStr` returns for the `message`
property of the exception object that `JsGetAndClearException` handed out;
the engine calls of the evaluation are the three calls up to the run, the
three calls that fetch the message and the three calls of that conversion;
and the only value converted is the message, so the run's result is neither
converted nor returned. -/
theorem Eval_JS_returns_exception_message {σ : Type} (E : Engine σ) (self : ChakraHandle)
    (w : World σ) (script sourceUrl : List Byte)
    (h : (runAnswer E self w script sourceUrl).code = JsErrorScriptException) :
    (ChakraHandle.Eval_JS E self w script sourceUrl).1
      = (JsValueRefToStr E (worldAtMessage E (worldAfterRun E self w script sourceUrl))
          (messageAnswer E (worldAfterRun E self w script sourceUrl)).out).1 ∧
    (ChakraHandle.Eval_JS E self w script sourceUrl).2.2.trace
      = w.trace ++ (runCalls E self w script sourceUrl
          ++ (exceptionCalls E (worldAfterRun E self w script sourceUrl)
          ++ conversionCalls E (worldAtMessage E (worldAfterRun E self w script sourceUrl))
              (messageAnswer E (worldAfterRun E self w script sourceUrl)).out)) ∧
    convertedValues ((ChakraHandle.Eval_JS E self w script sourceUrl).2.2.trace.drop
        w.trace.length)
      = [(messageAnswer E (worldAfterRun E self w script sourceUrl)).out] := by
  refine ⟨?_, Eval_JS_exception_trace E self w script sourceUrl h, ?_⟩
  · rw [Eval_JS_exception_path E self w script sourceUrl h]
  · rw [Eval_JS_exception_trace E self w script sourceUrl h, List.drop_left]
    simp [convertedValues_append, convertedValues_conversionCalls,
      convertedValues_exceptionCalls, convertedValues_runCalls]

/-- Witness of C3: the script `!hi` throws an error with message `hi` in
`miniEngine`; the evaluation returns `hi` and converts only reference `6`,
the message (the run left the null reference in `result`). -/
theorem Eval_JS_returns_exception_message_witness :
    (runAnswer miniEngine (ChakraHandle.new miniEngine miniWorld).1
      (ChakraHandle.new miniEngine miniWorld).2 [33, 104, 105] []).code
      = JsErrorScriptException ∧
    (ChakraHandle.Eval_JS miniEngine (ChakraHandle.new miniEngine miniWorld).1
      (ChakraHandle.new miniEngine miniWorld).2 [33, 104, 105] []).1 = [104, 105, 0] ∧
    convertedValues ((ChakraHandle.Eval_JS miniEngine (ChakraHandle.new miniEngine miniWorld).1
      (ChakraHandle.new miniEngine miniWorld).2 [33, 104, 105] []).2.2.trace.drop
        (ChakraHandle.new miniEngine miniWorld).2.trace.length) = [6] :=
  ⟨by decide,
   ((Eval_JS_returns_exception_message miniEngine (ChakraHandle.new miniEngine miniWorld).1
      (ChakraHandle.new miniEngine miniWorld).2 [33, 104, 105] [] (by decide)).1).trans
      (by decide),
   ((Eval_JS_returns_exception_message miniEngine (ChakraHandle.new miniEngine miniWorld).1
      (ChakraHandle.new miniEngine miniWorld).2 [33, 104, 105] [] (by decide)).2.2).trans
      (by decide)⟩

theorem ErrorCheck_outcome_other {σ : Type} (E : Engine σ) (allocates : Nat → Bool)
    (w : World σ) (errCode : JsErrorCode) (h : errCode ≠ JsErrorScriptException) :
    ErrorCheck.outcome E allocates w errCode = none := by
  simp [ErrorCheck.outcome, h]

theorem Eval_JS_outcome_eq {σ : Type} (E : Engine σ) (allocates : Nat → Bool)
    (self : ChakraHandle) (w : World σ) (script sourceUrl : List Byte) :
    ChakraHandle.Eval_JS.outcome E allocates self w script sourceUrl
      = match ErrorCheck.outcome E allocates (worldAfterRun E self w script sourceUrl)
          (runAnswer E self w script sourceUrl).code with
        | some r => (r.1, { self with callTimes := wrapInt32 (self.callTimes + 1) }, r.2)
        | none =>
          ((JsValueRefToStr.outcome E allocates (worldAfterRun E self w script sourceUrl)
              (runAnswer E self w script sourceUrl).out).1,
            { self with callTimes := wrapInt32 (self.callTimes + 1) },
            (JsValueRefToStr.outcome E allocates (worldAfterRun E self w script sourceUrl)
              (runAnswer E self w script sourceUrl).out).2) := by
  simp [ChakraHandle.Eval_JS.outcome, worldAfterRun, runAnswer, runCalls, scriptAnswer,
    sourceUrlAnswer, World.after]

theorem Eval_JS_outcome_result_path {σ : Type} (E : Engine σ) (allocates : Nat → Bool)
    (self : ChakraHandle) (w : World σ) (script sourceUrl : List Byte)
    (h : (runAnswer E self w script sourceUrl).code ≠ JsErrorScriptException) :
    ChakraHandle.Eval_JS.outcome E allocates self w script sourceUrl
      = ((JsValueRefToStr.outcome E allocates (worldAfterRun E self w script sourceUrl)
            (runAnswer E self w script sourceUrl).out).1,
          { self with callTimes := wrapInt32 (self.callTimes + 1) },
          (JsValueRefToStr.outcome E allocates (worldAfterRun E self w script sourceUrl)
            (runAnswer E self w script sourceUrl).out).2) := by
  rw [Eval_JS_outcome_eq, ErrorCheck_outcome_other E allocates _ _ h]

/-- C7 as the spec states it fails: in `miniEngine` the script `?` makes the
run call report `JsErrorScriptCompile`, which is neither success nor script
exception; `Eval_JS` does not abort with an engine error: its next engine
call is the coercion of the run's `result` variable (the null reference),
and once the one-byte buffer is allocated it returns the buffer `0`. -/
theorem Eval_JS_converts_result_after_compile_error :
    (runAnswer miniEngine (ChakraHandle.new miniEngine miniWorld).1
      (ChakraHandle.new miniEngine miniWorld).2 [63] []).code = JsErrorScriptCompile ∧
    JsErrorScriptCompile ≠ JsNoError ∧
    JsErrorScriptCompile ≠ JsErrorScriptException ∧
    (ChakraHandle.Eval_JS.outcome miniEngine grantAll (ChakraHandle.new miniEngine miniWorld).1
      (ChakraHandle.new miniEngine miniWorld).2 [63] []).1 = .returned [0] ∧
    ((ChakraHandle.Eval_JS.outcome miniEngine grantAll
      (ChakraHandle.new miniEngine miniWorld).1
      (ChakraHandle.new miniEngine miniWorld).2 [63] []).2.2.trace.drop
        ((ChakraHandle.new miniEngine miniWorld).2.trace.length + 3)).head?
      = some (.JsConvertValueToString
          (runAnswer miniEngine (ChakraHandle.new miniEngine miniWorld).1
            (ChakraHandle.new miniEngine miniWorld).2 [63] []).out) := by
  decide

/-- C7 amended: when the run call reports any status other than
`JsErrorScriptException`, success or not, `ErrorCheck` falls through without
an engine call and no engine error is raised: `Eval_JS` goes on to
`JsValueRefToStr(result)`.  After the run its first two engine calls are the
coercion of the content of the `result` variable and the length query on
the coerced value.  It returns the buffer of that conversion when the
buffer allocation succeeds (and the reported length plus one fits a
`size_t`); when the allocation fails it is left by `std::bad_alloc` and
returns no string. -/
theorem Eval_JS_returns_result_otherwise {σ : Type} (E : Engine σ) (allocates : Nat → Bool)
    (self : ChakraHandle) (w : World σ) (script sourceUrl : List Byte)
    (h : (runAnswer E self w script sourceUrl).code ≠ JsErrorScriptException) :
    ErrorCheck.outcome E allocates (worldAfterRun E self w script sourceUrl)
      (runAnswer E self w script sourceUrl).code = none ∧
    (ChakraHandle.Eval_JS.outcome E allocates self w script sourceUrl).1
      = (JsValueRefToStr.outcome E allocates (worldAfterRun E self w script sourceUrl)
          (runAnswer E self w script sourceUrl).out).1 ∧
    (∃ rest, (ChakraHandle.Eval_JS.outcome E allocates self w script sourceUrl).2.2.trace
      = w.trace ++ (runCalls E self w script sourceUrl
          ++ (.JsConvertValueToString (runAnswer E self w script sourceUrl).out
            :: .JsCopyString (coerced E (worldAfterRun E self w script sourceUrl)
                (runAnswer E self w script sourceUrl).out).out none 0 true
            :: rest))) ∧
    (allocates (allocationSize E (worldAfterRun E self w script sourceUrl)
        (runAnswer E self w script sourceUrl).out) = true →
      (lengthQuery E (worldAfterRun E self w script sourceUrl)
        (runAnswer E self w script sourceUrl).out).length + 1 < sizeModulus →
      (ChakraHandle.Eval_JS.outcome E allocates self w script sourceUrl).1
        = .returned (JsValueRefToStr E (worldAfterRun E self w script sourceUrl)
            (runAnswer E self w script sourceUrl).out).1) ∧
    (allocates (allocationSize E (worldAfterRun E self w script sourceUrl)
        (runAnswer E self w script sourceUrl).out) = false →
      (ChakraHandle.Eval_JS.outcome E allocates self w script sourceUrl).1 = .bad_alloc ∧
      (ChakraHandle.Eval_JS.outcome E allocates self w script sourceUrl).2.2.trace
        = w.trace ++ (runCalls E self w script sourceUrl
          ++ [.JsConvertValueToString (runAnswer E self w script sourceUrl).out,
              .JsCopyString (coerced E (worldAfterRun E self w script sourceUrl)
                (runAnswer E self w script sourceUrl).out).out none 0 true])) := by
  have hp := Eval_JS_outcome_result_path E allocates self w script sourceUrl h
  refine ⟨ErrorCheck_outcome_other E allocates _ _ h, ?_, ?_, ?_, ?_⟩
  · rw [hp]
  · obtain ⟨rest, hrest⟩ := JsValueRefToStr_outcome_starts E allocates
      (worldAfterRun E self w script sourceUrl) (runAnswer E self w script sourceUrl).out
    refine ⟨rest, ?_⟩
    rw [hp]
    show (JsValueRefToStr.outcome E allocates _ _).2.trace = _
    rw [hrest]
    simp only [worldAfterRun, List.append_assoc]
  · intro ha hfit
    rw [hp]
    show (JsValueRefToStr.outcome E allocates _ _).1 = _
    rw [JsValueRefToStr_outcome_granted E allocates _ _ ha hfit]
  · intro ha
    rw [hp]
    show (JsValueRefToStr.outcome E allocates _ _).1 = _ ∧
      (JsValueRefToStr.outcome E allocates _ _).2.trace = _
    rw [JsValueRefToStr_outcome_refused E allocates _ _ ha]
    refine ⟨rfl, ?_⟩
    simp only [worldAtAllocation, worldAfterRun, List.append_assoc]

/-- Witness of C7 amended: the script `?` of `miniEngine`, whose run reports
`JsErrorScriptCompile`: with the buffer granted the evaluation returns the
byte `0`, with the buffer refused it is left by `std::bad_alloc`. -/
theorem Eval_JS_returns_result_otherwise_witness :
    (runAnswer miniEngine (ChakraHandle.new miniEngine miniWorld).1
      (ChakraHandle.new miniEngine miniWorld).2 [63] []).code ≠ JsErrorScriptException ∧
    (ChakraHandle.Eval_JS.outcome miniEngine grantAll (ChakraHandle.new miniEngine miniWorld).1
      (ChakraHandle.new miniEngine miniWorld).2 [63] []).1 = .returned [0] ∧
    (ChakraHandle.Eval_JS.outcome miniEngine grantNone
      (ChakraHandle.new miniEngine miniWorld).1
      (ChakraHandle.new miniEngine miniWorld).2 [63] []).1 = .bad_alloc :=
  ⟨by decide,
   ((Eval_JS_returns_result_otherwise miniEngine grantAll
      (ChakraHandle.new miniEngine miniWorld).1
      (ChakraHandle.new miniEngine miniWorld).2 [63] [] (by decide)).2.2.2.1 rfl
      (by decide)).trans (by decide),
   ((Eval_JS_returns_result_otherwise miniEngine grantNone
      (ChakraHandle.new miniEngine miniWorld).1
      (ChakraHandle.new miniEngine miniWorld).2 [63] [] (by decide)).2.2.2.2 rfl).1⟩

theorem take_strlen (s : List Byte) : s.take (strlen s) = cString s := by
  unfold strlen cString
  induction s with
  | nil => rfl
  | cons a t ih =>
    by_cases h : (a != 0) = true
    · simp only [List.takeWhile_cons, h, if_true, List.length_cons, List.take_succ_cons, ih]
    · simp [List.takeWhile_cons, h]

theorem cString_of_no_zero (s : List Byte) (h : 0 ∉ s) : cString s = s := by
  unfold cString
  rw [List.takeWhile_eq_self_iff]
  intro b hb
  have : b ≠ 0 := fun hb0 => h (hb0 ▸ hb)
  simpa using this

theorem externalBuffers_append (a b : List Call) :
    externalBuffers (a ++ b) = externalBuffers a ++ externalBuffers b := by
  simp [externalBuffers, List.filterMap_append]

theorem externalBuffers_runCalls {σ : Type} (E : Engine σ) (self : ChakraHandle) (w : World σ)
    (script sourceUrl : List Byte) :
    externalBuffers (runCalls E self w script sourceUrl)
      = [script.take (strlen script % uintModulus)] := rfl

theorem externalBuffers_conversionCalls {σ : Type} (E : Engine σ) (w : World σ)
    (v : JsValueRef) : externalBuffers (conversionCalls E w v) = [] := rfl

theorem externalBuffers_exceptionCalls {σ : Type} (E : Engine σ) (w : World σ) :
    externalBuffers (exceptionCalls E w) = [] := rfl

/-- Every evaluation starts with the three calls up to the run. -/
theorem Eval_JS_trace_starts {σ : Type} (E : Engine σ) (self : ChakraHandle) (w : World σ)
    (script sourceUrl : List Byte) :
    ∃ rest, (ChakraHandle.Eval_JS E self w script sourceUrl).2.2.trace
        = w.trace ++ (runCalls E self w script sourceUrl ++ rest) ∧
      externalBuffers rest = [] ∧ runCookies rest = [] := by
  by_cases h : (runAnswer E self w script sourceUrl).code = JsErrorScriptException
  · exact ⟨_, Eval_JS_exception_trace E self w script sourceUrl h, rfl, rfl⟩
  · exact ⟨_, Eval_JS_result_trace E self w script sourceUrl h, rfl, rfl⟩

/-- C10 as the spec states it fails: for the four script bytes `1`, zero,
`+`, `2` the buffer handed to the engine covers only the byte `1`, with
byte length 1, not the four bytes of the script. -/
theorem Eval_JS_truncates_script_at_zero_byte :
    externalBuffers ((ChakraHandle.Eval_JS miniEngine (ChakraHandle.new miniEngine miniWorld).1
      (ChakraHandle.new miniEngine miniWorld).2 [49, 0, 43, 50] []).2.2.trace.drop
        (ChakraHandle.new miniEngine miniWorld).2.trace.length) = [[49]] ∧
    [49] ≠ [49, 0, 43, 50] ∧
    strlen [49, 0, 43, 50] = 1 ∧
    ((ChakraHandle.Eval_JS miniEngine (ChakraHandle.new miniEngine miniWorld).1
      (ChakraHandle.new miniEngine miniWorld).2 [49, 0, 43, 50] []).2.2.trace.drop
        (ChakraHandle.new miniEngine miniWorld).2.trace.length).take 3
      = [.JsCreateString [] 0, .JsCreateExternalArrayBuffer [49, 0, 43, 50] 1,
         .JsRun 5 0 4 .JsParseScriptAttributeNone] := by
  decide

/-- C10 amended: for every script, `Eval_JS` wraps one external array
buffer and hands it to the run call.  Its byte length is `strlen(script)`,
found by scanning for the first zero byte, narrowed to the 32-bit
`unsigned int` parameter; the buffer covers that many bytes from the start
of the script.  When `strlen(script)` is below 2^32 these are the script's
bytes before its first zero byte, and a script shorter than 2^32 bytes that
holds no zero byte is passed whole, with its full length. -/
theorem Eval_JS_buffer_is_c_string {σ : Type} (E : Engine σ) (self : ChakraHandle)
    (w : World σ) (script sourceUrl : List Byte) :
    ((ChakraHandle.Eval_JS E self w script sourceUrl).2.2.trace.drop w.trace.length).take 3
      = [.JsCreateString sourceUrl (strlen sourceUrl),
         .JsCreateExternalArrayBuffer script (strlen script % 4294967296),
         .JsRun (scriptAnswer E w script sourceUrl).out self.callTimes
           (sourceUrlAnswer E w sourceUrl).out .JsParseScriptAttributeNone] ∧
    externalBuffers ((ChakraHandle.Eval_JS E self w script sourceUrl).2.2.trace.drop
        w.trace.length) = [script.take (strlen script % 4294967296)] ∧
    (strlen script < 4294967296 →
      externalBuffers ((ChakraHandle.Eval_JS E self w script sourceUrl).2.2.trace.drop
        w.trace.length) = [cString script] ∧
      strlen script % 4294967296 = (cString script).length) ∧
    (0 ∉ script → script.length < 4294967296 →
      externalBuffers ((ChakraHandle.Eval_JS E self w script sourceUrl).2.2.trace.drop
        w.trace.length) = [script] ∧
      strlen script % 4294967296 = script.length) := by
  obtain ⟨rest, htrace, hrest, _⟩ := Eval_JS_trace_starts E self w script sourceUrl
  have hbuf : externalBuffers ((ChakraHandle.Eval_JS E self w script sourceUrl).2.2.trace.drop
      w.trace.length) = [script.take (strlen script % 4294967296)] := by
    rw [htrace, List.drop_left, externalBuffers_append, externalBuffers_runCalls, hrest]
    rfl
  refine ⟨?_, hbuf, ?_, ?_⟩
  · rw [htrace, List.drop_left]
    rfl
  · intro hlt
    rw [hbuf, Nat.mod_eq_of_lt hlt, take_strlen]
    exact ⟨rfl, rfl⟩
  · intro h0 hlt
    have hc := cString_of_no_zero script h0
    have hs : strlen script = script.length := by
      show (cString script).length = script.length
      rw [hc]
    rw [hbuf, hs, Nat.mod_eq_of_lt hlt, List.take_length]
    exact ⟨rfl, rfl⟩

/-- Witness of C10 amended: the script `hi`, which holds no zero byte, is
passed whole. -/
theorem Eval_JS_buffer_is_c_string_witness :
    (0 ∉ [104, 105]) ∧ [104, 105].length < 4294967296 ∧
    externalBuffers ((ChakraHandle.Eval_JS miniEngine (ChakraHandle.new miniEngine miniWorld).1
      (ChakraHandle.new miniEngine miniWorld).2 [104, 105] []).2.2.trace.drop
        (ChakraHandle.new miniEngine miniWorld).2.trace.length) = [[104, 105]] ∧
    strlen [104, 105] % 4294967296 = [104, 105].length :=
  ⟨by decide, by decide,
   (Eval_JS_buffer_is_c_string miniEngine (ChakraHandle.new miniEngine miniWorld).1
      (ChakraHandle.new miniEngine miniWorld).2 [104, 105] []).2.2.2 (by decide) (by decide)⟩

/-! ## The pending exception -/

theorem Eval_JS_exception_final_state {σ : Type} (E : Engine σ) (self : ChakraHandle)
    (w : World σ) (script sourceUrl : List Byte)
    (h : (runAnswer E self w script sourceUrl).code = JsErrorScriptException) :
    (ChakraHandle.Eval_JS E self w script sourceUrl).2.2.eng
      = (dataCopy E (worldAtMessage E (worldAfterRun E self w script sourceUrl))
          (messageAnswer E (worldAfterRun E self w script sourceUrl)).out).state := by
  rw [Eval_JS_exception_path E self w script sourceUrl h, JsValueRefToStr_world_eq]

theorem miniEngine_clears (st : MiniState) :
    miniEngine.hasException (miniEngine.JsGetAndClearException st).state = false := by
  obtain ⟨heap, pending, oom⟩ := st
  cases pending <;> rfl

theorem miniEngine_propertyId_quiet (st : MiniState) (name : List Byte) (n : Nat)
    (h : miniEngine.hasException st = false) :
    miniEngine.hasException (miniEngine.JsCreatePropertyId st name n).state = false := h

theorem miniEngine_getProperty_quiet (st : MiniState) (object : JsValueRef)
    (propertyId : JsPropertyIdRef) (h : miniEngine.hasException st = false) :
    miniEngine.hasException (miniEngine.JsGetProperty st object propertyId).state = false := by
  show miniEngine.hasException (miniGetProperty st object propertyId).state = false
  unfold miniGetProperty
  split
  · split <;> exact h
  · exact h

theorem miniEngine_convert_quiet (st : MiniState) (value : JsValueRef)
    (h : miniEngine.hasException st = false)
    (hc : (miniEngine.JsConvertValueToString st value).code ≠ JsErrorScriptException) :
    miniEngine.hasException (miniEngine.JsConvertValueToString st value).state = false := by
  change (miniConvertValueToString st value).code ≠ JsErrorScriptException at hc
  show miniEngine.hasException (miniConvertValueToString st value).state = false
  unfold miniConvertValueToString at hc ⊢
  split at hc
  · exact h
  · exact absurd rfl hc
  · exact h
  · exact h

theorem miniEngine_copy_quiet (st : MiniState) (value : JsValueRef)
    (buffer : Option (List Byte)) (n : Nat) (f : Bool)
    (h : miniEngine.hasException st = false) :
    miniEngine.hasException (miniEngine.JsCopyString st value buffer n f).state = false := by
  show miniEngine.hasException (miniCopyString st value buffer n).state = false
  unfold miniCopyString
  split
  · split <;> exact h
  · exact h

/-- C5 as the spec states it fails: in `miniEngine` the script `#` throws an
error whose message throws when coerced to a string.  The run reports a
script exception, `Eval_JS` calls `JsGetAndClearException` right after it,
and yet the engine state `Eval_JS` leaves has an exception pending: the
conversion of the message raised a new one. -/
theorem Eval_JS_leaves_exception_pending :
    (runAnswer miniEngine (ChakraHandle.new miniEngine miniWorld).1
      (ChakraHandle.new miniEngine miniWorld).2 [35] []).code = JsErrorScriptException ∧
    ((ChakraHandle.Eval_JS miniEngine (ChakraHandle.new miniEngine miniWorld).1
      (ChakraHandle.new miniEngine miniWorld).2 [35] []).2.2.trace.drop
        ((ChakraHandle.new miniEngine miniWorld).2.trace.length + 3)).head?
      = some .JsGetAndClearException ∧
    miniEngine.hasException (exceptionAnswer miniEngine
      (worldAfterRun miniEngine (ChakraHandle.new miniEngine miniWorld).1
        (ChakraHandle.new miniEngine miniWorld).2 [35] [])).state = false ∧
    miniEngine.hasException (ChakraHandle.Eval_JS miniEngine
      (ChakraHandle.new miniEngine miniWorld).1
      (ChakraHandle.new miniEngine miniWorld).2 [35] []).2.2.eng = true := by
  decide

/-- C5 amended: when the run call reports a script exception, the first
engine call `Eval_JS` makes after the run is `JsGetAndClearException`, so
the exception is cleared before `Eval_JS` returns.  In an engine where that
call leaves nothing pending and where a property-id, property-read,
coercion or copy call that does not report `JsErrorScriptException` raises
nothing, the state left for the next `Eval_JS` call has no pending exception
provided none of the five later calls of this evaluation reports
`JsErrorScriptException`. -/
theorem Eval_JS_clears_exception {σ : Type} (E : Engine σ) (self : ChakraHandle)
    (w : World σ) (script sourceUrl : List Byte)
    (h : (runAnswer E self w script sourceUrl).code = JsErrorScriptException) :
    (∃ rest, (ChakraHandle.Eval_JS E self w script sourceUrl).2.2.trace
        = (worldAfterRun E self w script sourceUrl).trace ++ .JsGetAndClearException :: rest) ∧
    ((∀ st, E.hasException (E.JsGetAndClearException st).state = false) →
     (∀ st name n, E.hasException st = false →
        (E.JsCreatePropertyId st name n).code ≠ JsErrorScriptException →
        E.hasException (E.JsCreatePropertyId st name n).state = false) →
     (∀ st object propertyId, E.hasException st = false →
        (E.JsGetProperty st object propertyId).code ≠ JsErrorScriptException →
        E.hasException (E.JsGetProperty st object propertyId).state = false) →
     (∀ st value, E.hasException st = false →
        (E.JsConvertValueToString st value).code ≠ JsErrorScriptException →
        E.hasException (E.JsConvertValueToString st value).state = false) →
     (∀ st value buffer n f, E.hasException st = false →
        (E.JsCopyString st value buffer n f).code ≠ JsErrorScriptException →
        E.hasException (E.JsCopyString st value buffer n f).state = false) →
     (messageIdAnswer E (worldAfterRun E self w script sourceUrl)).code
        ≠ JsErrorScriptException →
     (messageAnswer E (worldAfterRun E self w script sourceUrl)).code
        ≠ JsErrorScriptException →
     (coerced E (worldAtMessage E (worldAfterRun E self w script sourceUrl))
        (messageAnswer E (worldAfterRun E self w script sourceUrl)).out).code
        ≠ JsErrorScriptException →
     (lengthQuery E (worldAtMessage E (worldAfterRun E self w script sourceUrl))
        (messageAnswer E (worldAfterRun E self w script sourceUrl)).out).code
        ≠ JsErrorScriptException →
     (dataCopy E (worldAtMessage E (worldAfterRun E self w script sourceUrl))
        (messageAnswer E (worldAfterRun E self w script sourceUrl)).out).code
        ≠ JsErrorScriptException →
     E.hasException (ChakraHandle.Eval_JS E self w script sourceUrl).2.2.eng = false) := by
  constructor
  · refine ⟨(exceptionCalls E (worldAfterRun E self w script sourceUrl)).tail
      ++ conversionCalls E (worldAtMessage E (worldAfterRun E self w script sourceUrl))
          (messageAnswer E (worldAfterRun E self w script sourceUrl)).out, ?_⟩
    rw [Eval_JS_exception_trace E self w script sourceUrl h]
    simp only [worldAfterRun, exceptionCalls, List.append_assoc, List.cons_append,
      List.nil_append, List.tail_cons]
  · intro hclear hid hget hconv hcopy c1 c2 c3 c4 c5
    rw [Eval_JS_exception_final_state E self w script sourceUrl h]
    have s0 := hclear (worldAfterRun E self w script sourceUrl).eng
    have s1 := hid _ messageName 7 s0 c1
    have s2 := hget _ _ _ s1 c2
    have s3 := hconv _ _ s2 c3
    have s4 := hcopy _ _ _ _ _ s3 c4
    exact hcopy _ _ _ _ _ s4 c5

/-- Witness of C5 amended: the script `!hi` of `miniEngine` throws an error
with a string message; after the evaluation nothing is pending. -/
theorem Eval_JS_clears_exception_witness :
    (runAnswer miniEngine (ChakraHandle.new miniEngine miniWorld).1
      (ChakraHandle.new miniEngine miniWorld).2 [33, 104, 105] []).code
      = JsErrorScriptException ∧
    miniEngine.hasException (ChakraHandle.Eval_JS miniEngine
      (ChakraHandle.new miniEngine miniWorld).1
      (ChakraHandle.new miniEngine miniWorld).2 [33, 104, 105] []).2.2.eng = false :=
  ⟨by decide,
   (Eval_JS_clears_exception miniEngine (ChakraHandle.new miniEngine miniWorld).1
      (ChakraHandle.new miniEngine miniWorld).2 [33, 104, 105] [] (by decide)).2
      miniEngine_clears
      (fun st name n hst _ => miniEngine_propertyId_quiet st name n hst)
      (fun st object propertyId hst _ => miniEngine_getProperty_quiet st object propertyId hst)
      miniEngine_convert_quiet
      (fun st value buffer n f hst _ => miniEngine_copy_quiet st value buffer n f hst)
      (by decide) (by decide) (by decide) (by decide) (by decide)⟩

/-! ## The constructor -/

/-- The engine calls of the constructor, in order, and the state it leaves. -/
theorem constructor_trace {σ : Type} (E : Engine σ) (w : World σ) :
    (ChakraHandle.new E w).2
      = { eng := (setPropertyAnswer E w).state, trace := w.trace ++ constructorCalls E w,
          stdout := w.stdout } := by
  simp only [ChakraHandle.new, ChakraHandle.setEcho, World.after, constructorCalls,
    setPropertyAnswer, echoIdAnswer, globalObjectAnswer, functionAnswer, currentContextAnswer,
    contextAnswer, runtimeAnswer, List.append_assoc, List.cons_append, List.nil_append]
  rfl

/-- C6 as the spec states it fails: in an engine that cannot create a
runtime, `JsCreateRuntime` and then `JsCreateContext` report non-success
statuses, and the constructor still sets a context current, registers
`echo` and produces a handle. -/
theorem constructor_ignores_creation_failure :
    (runtimeAnswer miniEngine miniWorldOutOfMemory).code ≠ JsNoError ∧
    (contextAnswer miniEngine miniWorldOutOfMemory).code ≠ JsNoError ∧
    (ChakraHandle.new miniEngine miniWorldOutOfMemory).2.trace
      = [.JsCreateRuntime .JsRuntimeAttributeNone, .JsCreateContext 0, .JsSetCurrentContext 0,
         .JsCreateFunction .Echo, .JsGetGlobalObject, .JsCreatePropertyId echoName 4,
         .JsSetProperty 2 3 1 false] ∧
    (functionAnswer miniEngine miniWorldOutOfMemory).out = 1 ∧
    (globalObjectAnswer miniEngine miniWorldOutOfMemory).out = 2 ∧
    (echoIdAnswer miniEngine miniWorldOutOfMemory).out = 3 ∧
    (ChakraHandle.new miniEngine miniWorldOutOfMemory).1
      = { runtime := 0, context := 0, callTimes := 0 } := by
  decide

/-- C6 amended: construction has no failure path and looks at no status.
For every engine, whatever the runtime-creation and context-creation calls
report, the constructor makes the same seven engine calls: it creates the
runtime, creates a context in the content of the runtime variable, makes the
content of the context variable current, wraps `Echo` as a function, fetches
the global object, interns the name `echo`, and sets that property of the
fetched global object to the function just created, non-strict.  The handle
it produces holds the contents of the two variables and `callTimes = 0`. -/
theorem constructor_registers_echo {σ : Type} (E : Engine σ) (w : World σ) :
    (ChakraHandle.new E w).1
      = { runtime := (runtimeAnswer E w).out, context := (contextAnswer E w).out,
          callTimes := 0 } ∧
    (ChakraHandle.new E w).2.trace
      = w.trace ++ [.JsCreateRuntime .JsRuntimeAttributeNone,
          .JsCreateContext (E.JsCreateRuntime w.eng .JsRuntimeAttributeNone).out,
          .JsSetCurrentContext (contextAnswer E w).out,
          .JsCreateFunction .Echo,
          .JsGetGlobalObject,
          .JsCreatePropertyId [101, 99, 104, 111] 4,
          .JsSetProperty (E.JsGetGlobalObject (functionAnswer E w).state).out
            (E.JsCreatePropertyId (globalObjectAnswer E w).state [101, 99, 104, 111] 4).out
            (E.JsCreateFunction (currentContextAnswer E w).state .Echo).out false] ∧
    (ChakraHandle.new E w).2.eng
      = (E.JsSetProperty (echoIdAnswer E w).state (globalObjectAnswer E w).out
          (echoIdAnswer E w).out (functionAnswer E w).out false).state ∧
    (ChakraHandle.new E w).2.stdout = w.stdout := by
  rw [constructor_trace]
  exact ⟨rfl, rfl, rfl, rfl⟩

/-! ## The call cookie -/

theorem wrapInt32_of_range (x : Int) (h0 : -2147483648 ≤ x) (h1 : x < 2147483648) :
    wrapInt32 x = x := by
  unfold wrapInt32; omega

theorem wrapInt32_range (x : Int) : -2147483648 ≤ wrapInt32 x ∧ wrapInt32 x < 2147483648 := by
  unfold wrapInt32; omega

theorem wrapInt32_succ (c : Int) (i : Nat) :
    wrapInt32 (wrapInt32 (c + 1) + (i : Int)) = wrapInt32 (c + ((i + 1 : Nat) : Int)) := by
  unfold wrapInt32; push_cast; omega

theorem runCookies_append (a b : List Call) :
    runCookies (a ++ b) = runCookies a ++ runCookies b := by
  simp [runCookies, List.filterMap_append]

theorem Eval_JS_handle {σ : Type} (E : Engine σ) (self : ChakraHandle) (w : World σ)
    (script sourceUrl : List Byte) :
    (ChakraHandle.Eval_JS E self w script sourceUrl).2.1
      = { self with callTimes := wrapInt32 (self.callTimes + 1) } := by
  by_cases h : (runAnswer E self w script sourceUrl).code = JsErrorScriptException
  · rw [Eval_JS_exception_path E self w script sourceUrl h]
  · rw [Eval_JS_result_path E self w script sourceUrl h]

/-- One evaluation logs one `JsRun`, whose cookie is the handle's `callTimes`. -/
theorem Eval_JS_cookie {σ : Type} (E : Engine σ) (self : ChakraHandle) (w : World σ)
    (script sourceUrl : List Byte) :
    ∃ ext, (ChakraHandle.Eval_JS E self w script sourceUrl).2.2.trace = w.trace ++ ext ∧
      runCookies ext = [self.callTimes] := by
  obtain ⟨rest, htrace, _, hrest⟩ := Eval_JS_trace_starts E self w script sourceUrl
  refine ⟨_, htrace, ?_⟩
  rw [runCookies_append, hrest]
  rfl

theorem evalAll_cookies {σ : Type} (E : Engine σ) (scripts : List (List Byte × List Byte)) :
    ∀ (self : ChakraHandle) (w : World σ),
      ∃ ext, (evalAll E self w scripts).2.trace = w.trace ++ ext ∧
        runCookies ext = cookiesFrom self.callTimes scripts.length ∧
        (evalAll E self w scripts).1.callTimes
          = (fun c => wrapInt32 (c + 1))^[scripts.length] self.callTimes := by
  induction scripts with
  | nil => intro self w; exact ⟨[], by simp [evalAll], rfl, rfl⟩
  | cons p rest ih =>
    intro self w
    obtain ⟨script, sourceUrl⟩ := p
    obtain ⟨e1, h1, c1⟩ := Eval_JS_cookie E self w script sourceUrl
    obtain ⟨e2, h2, c2, t2⟩ := ih (ChakraHandle.Eval_JS E self w script sourceUrl).2.1
      (ChakraHandle.Eval_JS E self w script sourceUrl).2.2
    refine ⟨e1 ++ e2, ?_, ?_, ?_⟩
    · show (evalAll E _ _ rest).2.trace = _
      rw [h2, h1, List.append_assoc]
    · rw [runCookies_append, c1, c2, Eval_JS_handle]
      rfl
    · show (evalAll E _ _ rest).1.callTimes = _
      rw [t2, Eval_JS_handle]
      rfl

theorem constructor_cookies {σ : Type} (E : Engine σ) (w : World σ) :
    ∃ ext, (ChakraHandle.new E w).2.trace = w.trace ++ ext ∧ runCookies ext = [] ∧
      (ChakraHandle.new E w).1.callTimes = 0 := by
  refine ⟨constructorCalls E w, ?_, rfl, rfl⟩
  rw [constructor_trace]

theorem cookiesFrom_below_wrap (n : Nat) :
    ∀ (c : Int), 0 ≤ c → c + n ≤ 2147483648 →
      cookiesFrom c n = (List.range n).map (fun (i : Nat) => c + (i : Int)) := by
  induction n with
  | zero => intro c _ _; rfl
  | succ n ih =>
    intro c h0 h1
    rw [List.range_succ_eq_map, cookiesFrom]
    cases n with
    | zero => simp [cookiesFrom]
    | succ m =>
      have hw : wrapInt32 (c + 1) = c + 1 := by
        apply wrapInt32_of_range <;> push_cast at h1 <;> omega
      rw [hw, ih (c + 1) (by omega) (by push_cast at h1 ⊢; omega)]
      simp only [List.map_cons, List.map_map, Nat.cast_zero, add_zero, List.cons.injEq,
        true_and]
      apply List.map_congr_left
      intro i _
      simp only [Function.comp, Nat.succ_eq_add_one]
      push_cast
      omega

theorem getElem?_cookiesFrom (n : Nat) :
    ∀ (c : Int) (i : Nat), i < n → -2147483648 ≤ c → c < 2147483648 →
      (cookiesFrom c n)[i]? = some (wrapInt32 (c + (i : Int))) := by
  induction n with
  | zero => intro c i hi; omega
  | succ n ih =>
    intro c i hi h0 h1
    cases i with
    | zero =>
      simp only [cookiesFrom, List.getElem?_cons_zero, Nat.cast_zero, add_zero]
      rw [wrapInt32_of_range c h0 h1]
    | succ j =>
      simp only [cookiesFrom, List.getElem?_cons_succ]
      rw [ih (wrapInt32 (c + 1)) j (by omega) (wrapInt32_range _).1 (wrapInt32_range _).2,
        wrapInt32_succ]

theorem pairwise_lt_range_cast (n : Nat) :
    List.Pairwise (fun a b : Int => a < b) ((List.range n).map (fun (i : Nat) => (i : Int))) := by
  refine List.pairwise_map.mpr ?_
  refine (List.pairwise_lt_range n).imp ?_
  intro a b h
  exact_mod_cast h

theorem not_pairwise_lt_of_repeat (l : List Int) (i j : Nat) (a : Int) (hij : i < j)
    (hi : l[i]? = some a) (hj : l[j]? = some a) :
    ¬ List.Pairwise (fun x y : Int => x < y) l := by
  intro hp
  obtain ⟨hil, hia⟩ := List.getElem?_eq_some.mp hi
  obtain ⟨hjl, hja⟩ := List.getElem?_eq_some.mp hj
  have := List.pairwise_iff_getElem.mp hp i j hil hjl hij
  rw [hia, hja] at this
  exact lt_irrefl a this

/-- The cookies a freshly constructed handle passes over a sequence of
evaluations. -/
theorem cookies_of_fresh_handle {σ : Type} (E : Engine σ) (w : World σ)
    (scripts : List (List Byte × List Byte)) :
    runCookies ((evalAll E (ChakraHandle.new E w).1 (ChakraHandle.new E w).2 scripts).2.trace.drop
        w.trace.length) = cookiesFrom 0 scripts.length := by
  obtain ⟨e0, h0, c0, t0⟩ := constructor_cookies E w
  obtain ⟨e1, h1, c1, _⟩ := evalAll_cookies E scripts (ChakraHandle.new E w).1
    (ChakraHandle.new E w).2
  rw [h1, h0, List.append_assoc, List.drop_left, runCookies_append, c0, c1, t0]
  rfl

/-- C4 as the spec states it fails: a handle that evaluates 2^32 + 1 scripts
passes the cookie 0 both in evaluation 0 and in evaluation 2^32, so the
cookies of that sequence are not strictly increasing and one is reused. -/
theorem cookie_reused_after_wrap :
    (runCookies ((evalAll miniEngine (ChakraHandle.new miniEngine miniWorld).1
      (ChakraHandle.new miniEngine miniWorld).2
      (List.replicate 4294967297 ([49], []))).2.trace.drop miniWorld.trace.length))[0]?
      = some 0 ∧
    (runCookies ((evalAll miniEngine (ChakraHandle.new miniEngine miniWorld).1
      (ChakraHandle.new miniEngine miniWorld).2
      (List.replicate 4294967297 ([49], []))).2.trace.drop
        miniWorld.trace.length))[4294967296]?
      = some 0 ∧
    ¬ List.Pairwise (fun x y : Int => x < y)
      (runCookies ((evalAll miniEngine (ChakraHandle.new miniEngine miniWorld).1
        (ChakraHandle.new miniEngine miniWorld).2
        (List.replicate 4294967297 ([49], []))).2.trace.drop miniWorld.trace.length)) := by
  rw [cookies_of_fresh_handle, List.length_replicate]
  have h0 : (cookiesFrom 0 4294967297)[0]? = some 0 := by
    rw [getElem?_cookiesFrom 4294967297 0 0 (by omega) (by omega) (by omega)]
    rfl
  have h1 : (cookiesFrom 0 4294967297)[4294967296]? = some 0 := by
    rw [getElem?_cookiesFrom 4294967297 0 4294967296 (by omega) (by omega) (by omega)]
    unfold wrapInt32
    norm_num
  exact ⟨h0, h1, not_pairwise_lt_of_repeat _ 0 4294967296 0 (by omega) h0 h1⟩

/-- C4 amended: over the first 2^31 evaluations of a handle the cookies
passed to the run call are 0, 1, 2, ... in order: the k-th evaluation passes
`k`, so they are strictly increasing and none is reused.  Every evaluation,
whatever status its run reports, passes the current `callTimes` and stores
its increment, wrapped to 32 bits. -/
theorem cookies_increase_below_wrap {σ : Type} (E : Engine σ) (w : World σ)
    (scripts : List (List Byte × List Byte)) (hn : scripts.length ≤ 2147483648) :
    runCookies ((evalAll E (ChakraHandle.new E w).1 (ChakraHandle.new E w).2 scripts).2.trace.drop
        w.trace.length) = (List.range scripts.length).map (fun (k : Nat) => (k : Int)) ∧
    List.Pairwise (fun x y : Int => x < y)
      (runCookies ((evalAll E (ChakraHandle.new E w).1 (ChakraHandle.new E w).2
        scripts).2.trace.drop w.trace.length)) ∧
    (runCookies ((evalAll E (ChakraHandle.new E w).1 (ChakraHandle.new E w).2
        scripts).2.trace.drop w.trace.length)).Nodup ∧
    (∀ (self : ChakraHandle) (w1 : World σ) (script sourceUrl : List Byte),
      runCookies ((ChakraHandle.Eval_JS E self w1 script sourceUrl).2.2.trace.drop
        w1.trace.length) = [self.callTimes] ∧
      (ChakraHandle.Eval_JS E self w1 script sourceUrl).2.1.callTimes
        = wrapInt32 (self.callTimes + 1)) := by
  have hc : runCookies ((evalAll E (ChakraHandle.new E w).1 (ChakraHandle.new E w).2
        scripts).2.trace.drop w.trace.length)
      = (List.range scripts.length).map (fun (k : Nat) => (k : Int)) := by
    rw [cookies_of_fresh_handle, cookiesFrom_below_wrap scripts.length 0 (le_refl 0)
      (by omega)]
    apply List.map_congr_left
    intro k _
    omega
  refine ⟨hc, ?_, ?_, ?_⟩
  · rw [hc]; exact pairwise_lt_range_cast _
  · rw [hc]
    exact (pairwise_lt_range_cast _).imp (fun h => ne_of_lt h)
  · intro self w1 script sourceUrl
    obtain ⟨ext, htrace, hcookie⟩ := Eval_JS_cookie E self w1 script sourceUrl
    refine ⟨?_, ?_⟩
    · rw [htrace, List.drop_left, hcookie]
    · rw [Eval_JS_handle]

/-- Witness of C4 amended: a successful evaluation, one that throws and one
that does not compile pass the cookies 0, 1 and 2. -/
theorem cookies_increase_below_wrap_witness :
    miniScripts.length ≤ 2147483648 ∧
    runCookies ((evalAll miniEngine (ChakraHandle.new miniEngine miniWorld).1
      (ChakraHandle.new miniEngine miniWorld).2 miniScripts).2.trace.drop
        miniWorld.trace.length) = [0, 1, 2] :=
  ⟨by decide,
   (cookies_increase_below_wrap miniEngine miniWorld miniScripts (by decide)).1.trans
     (by decide)⟩

/-! ## `Echo` -/

end ChakraSample
